import Mathlib

/-!
# SD-card logger of the flight IMU (`projects/flight-imu/sdc/sdcdetail.c`)

A shallow embedding of `sdc_log_data` and of the set-up and dispatch loop of
`sdlog_thread`.  The handler is a function from the module state, the
notification id and the outcomes of the external calls made during one
invocation (an `Env`) to the new state and the list of external calls issued
(a list of `Op`).  The host-side temperature conversion `adis16405_temp_to_dC`
of `projects/flight-imu/host_fc/si_fc.c` is embedded in the namespace `SiFc`.
-/

/-! ## Host-side conversion of the ADIS16405 temperature (`host_fc/si_fc.c`) -/

namespace SiFc

/-- The function `adis16405_temp_to_dC` of `si_fc.c`: the argument is the 16-bit value
`*twos_num`, the result is the returned flag and the value stored in `*temperature`.
The operands of `~` and `&` are promoted to 32-bit `int`; the `double` arithmetic is
taken exact, with `0.14` the rational 14/100. -/
def adis16405_temp_to_dC (twos_num : Nat) : Bool × ℚ :=
  let isnegative : Bool := decide (((1 <<< 11) % 2 ^ 16 &&& twos_num) ≠ 0)
  if isnegative then
    let ones_comp : Nat := (((twos_num &&& 0xfff) ^^^ 0xffffffff) &&& 0xfff) % 2 ^ 16
    let decimal : Nat := (ones_comp + 1) % 2 ^ 32
    (isnegative, -1 * ((decimal : ℚ) * (14 / 100)) + 25)
  else
    let decimal : Nat := twos_num
    (isnegative, (decimal : ℚ) * (14 / 100) + 25)

/-- The signed value of the low 12 bits of `raw` read as 12-bit two's complement. -/
def twelve_bit_value (raw : Nat) : Int :=
  if raw % 4096 < 2048 then (raw % 4096 : Nat) else ((raw % 4096 : Nat) : Int) - 4096

/-- The temperature the conversion is documented to produce: 25 + 0.14 * v. -/
def temp_of_value (v : Int) : ℚ := 25 + (14 / 100) * (v : ℚ)

end SiFc

/-! ## The logger `sdc/sdcdetail.c` -/

namespace Sdc

/-! ## Types and constants declared outside `sdcdetail.c` -/

/-- FatFs result code; `FR_OK` is 0 and the source tests failure with `if(f_ret)`. -/
abbrev FRESULT := Nat

/-- FatFs success code. -/
abbrev FR_OK : FRESULT := 0

/-- Result code of the `sdc_*` helpers.  The source only distinguishes `SDC_OK` from
the rest and returns `SDC_ASSERT_ERROR` from the thread set-up; every other member
of the enumeration is `SDC_FAILURE code`. -/
inductive SDC_ERRORCode where
  | SDC_OK
  | SDC_ASSERT_ERROR
  | SDC_FAILURE (code : Nat)
  deriving DecidableEq, Repr

open SDC_ERRORCode

/-- Values of `enum WHICH_SENSOR`; an `eventid_t` is modelled as a natural number. -/
abbrev MPU9150 : Nat := 0
/-- Stream B (pressure and temperature). -/
abbrev MPL3115A2 : Nat := 1
/-- Stream C (inertial burst). -/
abbrev ADIS16405 : Nat := 2
/-- Halt-control notification. -/
abbrev SENSOR_LOG_HALT : Nat := 3
/-- Start-control notification. -/
abbrev SENSOR_LOG_START : Nat := 4

/-- Shipped value of `static const int32_t mpu_downsample`. -/
abbrev mpu_downsample : Int := 30
/-- Shipped value of `static const int32_t mpl_downsample`. -/
abbrev mpl_downsample : Int := 30

/-- Value stored in an `int32_t` after an arithmetic result `x` (two's complement). -/
def wrap_int32 (x : Int) : Int := (x + 2 ^ 31) % 2 ^ 32 - 2 ^ 31

/-- Value stored in a `uint32_t` after an arithmetic result `x`. -/
def wrap_uint32 (x : Nat) : Nat := x % 2 ^ 32

/-- Header `mh` of the staging record. -/
structure Message_head where
  index : Nat
  ID : List Nat
  ts : Nat
  data_length : Nat
  deriving DecidableEq, Repr

/-- Field `logtime` of the staging record. -/
structure RTCLogtime where
  tv_time : Nat
  tv_msec : Nat
  deriving DecidableEq, Repr

/-- The staging record `datafile_state.log_data`; `data` is the payload byte array. -/
structure GENERIC_message where
  mh : Message_head
  logtime : RTCLogtime
  data : List Nat
  deriving DecidableEq, Repr

/-- Sizes, tags and pure helpers whose declarations are outside `sdcdetail.c`. -/
structure Config where
  sizeof_MPU9150_read_data : Nat
  sizeof_MPL3115A2_read_data : Nat
  sizeof_ADIS16405_burst_data : Nat
  /-- Is `sizeof(datafile_state.log_data.data)`. -/
  sizeof_data : Nat
  /-- Is `sizeof(datafile_state.log_data.mh.ID)`. -/
  sizeof_ID : Nat
  sizeof_GENERIC_message : Nat
  /-- The C string `mpuid`. -/
  mpuid : List Nat
  /-- The C string `mplid`. -/
  mplid : List Nat
  /-- Bytes of the fields of the staging record that precede `data`. -/
  head_image : Message_head → RTCLogtime → List Nat
  crc_init : Nat
  crc_update : Nat → List Nat → Nat
  crc_finalize : Nat → Nat

/-- The fields of `struct dfstate` that the handler reads or writes (`filesize`,
`fp_index`, `DATAFil_info` and the handle `DATAFil` are never read by it). -/
structure dfstate where
  log_sequence : Nat
  write_errors : Nat
  log_data : GENERIC_message
  sd_log_opened : Bool
  deriving DecidableEq, Repr

/-- Module state: the file-scope statics of `sdcdetail.c`, the function-scope statics
of `sdc_log_data`, and the write cursor `sdc_fp_index` (with its debug shadow
`sdc_fp_index_old`) owned by the `sdc_*` helpers. -/
structure State where
  fs_stop : Bool
  datafile_state : dfstate
  mpu_count : Int
  mpl_count : Int
  sdc_fp_index : Nat
  sdc_fp_index_old : Nat
  deriving DecidableEq, Repr

/-- Mode argument of `f_open`. -/
inductive OpenMode where
  /-- Is `FA_OPEN_EXISTING | FA_READ | FA_WRITE`. -/
  | existing
  /-- Is `FA_CREATE_ALWAYS | FA_WRITE`. -/
  | create_always
  deriving DecidableEq, Repr

/-- External calls issued by the translated code, with their arguments and results. -/
inductive Op where
  | f_stat (r : FRESULT)
  | f_open (mode : OpenMode) (r : FRESULT)
  | chThdSleepMilliseconds (ms : Nat)
  | sdc_seek_eod (r : SDC_ERRORCode)
  | sdc_reset_fp_index
  | sdc_init_eod (marker : Nat)
  | psas_rtc_get_unix_time (rc : Int)
  | sdc_write_log_message (offset : Nat) (d : GENERIC_message) (r : SDC_ERRORCode)
  | sdc_write_checksum (offset : Nat) (crc16 : Nat) (r : SDC_ERRORCode)
  | f_close (r : FRESULT)
  | chEvtRegister (eid : Nat)
  deriving DecidableEq, Repr

/-- Everything one invocation of `sdc_log_data` reads from outside the module: the two
reads of `fs_ready`, the results of the external calls in the order of the source, the
clock reading and the current sensor snapshots. -/
structure Env where
  /-- Value of `fs_ready` read by the guard of the opening procedure. -/
  fs_ready_open : Bool
  /-- Value of `fs_ready` read by the guard of the logging block. -/
  fs_ready_log : Bool
  f_stat : FRESULT
  f_open_existing_1 : FRESULT
  f_open_existing_2 : FRESULT
  f_open_create_1 : FRESULT
  f_open_create_2 : FRESULT
  seek_eod : SDC_ERRORCode
  /-- Offset found by `sdc_seek_eod` when it succeeds. -/
  eod_offset : Nat
  rtc_rc : Int
  tv_time : Nat
  tv_msec : Nat
  /-- Time stamp produced by `psas_rtc_to_psas_ts` from the clock reading. -/
  ts : Nat
  mpu9150_current_read : List Nat
  mpl3115a2_current_read : List Nat
  write_log_message : SDC_ERRORCode
  /-- Number of bytes by which the call of `sdc_write_log_message` moves `sdc_fp_index`. -/
  write_log_message_advance : Nat
  write_checksum : SDC_ERRORCode
  /-- Number of bytes by which the call of `sdc_write_checksum` moves `sdc_fp_index`. -/
  write_checksum_advance : Nat
  f_close_1 : FRESULT
  f_close_2 : FRESULT
  deriving DecidableEq, Repr

/-! ## Library routines -/

/-- The C routine `strncpy(dst, src, n)`: the characters of `src` before its
terminator, at most `n` of them, padded with zero bytes up to `n`. -/
def strncpy (src : List Nat) (n : Nat) : List Nat :=
  let body := (src.takeWhile (fun ch => ch != 0)).take n
  body ++ List.replicate (n - body.length) 0

/-- The C routine `memcpy(dst, src, n)`: the first `n` bytes of `dst` are replaced by
the first `n` bytes of `src`, the rest of `dst` is kept. -/
def memcpy (dst src : List Nat) (n : Nat) : List Nat :=
  (List.range n).map (fun i => src.getD i 0) ++ dst.drop n

/-- Byte image of the whole staging record, `sizeof(GENERIC_message)` bytes starting
at `&datafile_state.log_data`. -/
def GENERIC_message_image (c : Config) (d : GENERIC_message) : List Nat :=
  c.head_image d.mh d.logtime ++ d.data

/-! ## Helpers of `psas_sdclog.c` -/

/-- Modelled from the spec: `sdc_reset_fp_index` of the absent `psas_sdclog.c`,
the EOD tracker's `reset()`, which sets the write cursor to 0. -/
def sdc_reset_fp_index (s : State) : State :=
  { s with sdc_fp_index := 0 }

/-- Modelled from the spec: `sdc_seek_eod` of the absent `psas_sdclog.c`, the EOD
tracker's `locate`, which on success resumes the write cursor at the offset found and
otherwise reports a failure and leaves the cursor alone. -/
def sdc_seek_eod (e : Env) (s : State) : State × SDC_ERRORCode :=
  if e.seek_eod = SDC_OK then
    ({ s with sdc_fp_index := wrap_uint32 e.eod_offset }, SDC_OK)
  else (s, e.seek_eod)

/-- The helper `sdc_write_log_message` of the absent `psas_sdclog.c`: its result and the
number of bytes by which it moves the write cursor `sdc_fp_index` (modulo 2^32, so that
any new value is possible) are outcomes supplied by the environment. -/
def sdc_write_log_message (e : Env) (s : State) : State × SDC_ERRORCode :=
  ({ s with sdc_fp_index := wrap_uint32 (s.sdc_fp_index + e.write_log_message_advance) },
    e.write_log_message)

/-- The helper `sdc_write_checksum` of the absent `psas_sdclog.c`: its result and the
number of bytes by which it moves the write cursor `sdc_fp_index` (modulo 2^32) are
outcomes supplied by the environment. -/
def sdc_write_checksum (e : Env) (s : State) : State × SDC_ERRORCode :=
  ({ s with sdc_fp_index := wrap_uint32 (s.sdc_fp_index + e.write_checksum_advance) },
    e.write_checksum)

/-! ## The handler `sdc_log_data` -/

/-- First half of the opening procedure: `f_open` in place and, if it fails, a second
attempt after a 500 ms sleep.  Returns the final `f_ret` and the calls issued. -/
def f_open_existing_retry (e : Env) : FRESULT × List Op :=
  if e.f_open_existing_1 ≠ 0 then
    (e.f_open_existing_2,
      [Op.f_open OpenMode.existing e.f_open_existing_1, Op.chThdSleepMilliseconds 500,
       Op.f_open OpenMode.existing e.f_open_existing_2])
  else (e.f_open_existing_1, [Op.f_open OpenMode.existing e.f_open_existing_1])

/-- Second half of the opening procedure: `f_open` with `FA_CREATE_ALWAYS` and, if it
fails, a second attempt.  Returns the final `f_ret` and the calls issued. -/
def f_open_create_retry (e : Env) : FRESULT × List Op :=
  if e.f_open_create_1 ≠ 0 then
    (e.f_open_create_2,
      [Op.f_open OpenMode.create_always e.f_open_create_1,
       Op.f_open OpenMode.create_always e.f_open_create_2])
  else (e.f_open_create_1, [Op.f_open OpenMode.create_always e.f_open_create_1])

/-- After an in-place open: look for the EOD marker and reset the cursor when it is not
found. -/
def sdc_resume_or_reset (e : Env) (s : State) : State × List Op :=
  let sk := sdc_seek_eod e s
  if sk.2 = SDC_OK then (sk.1, [Op.sdc_seek_eod sk.2])
  else (sdc_reset_fp_index sk.1, [Op.sdc_seek_eod sk.2, Op.sdc_reset_fp_index])

/-- The opening procedure of `sdc_log_data` (the first `if` of its body): when the medium is
ready and the store is not open, stat the file, try twice to open it in place, then twice
to create it; after an in-place open look for the EOD marker and clear `write_errors`. -/
def sdc_open_file (e : Env) (s : State) : State × List Op :=
  if e.fs_ready_open && !s.datafile_state.sd_log_opened then
    let oe := f_open_existing_retry e
    if oe.1 ≠ 0 then
      let oc := f_open_create_retry e
      if oc.1 ≠ 0 then
        ({ s with datafile_state := { s.datafile_state with sd_log_opened := false } },
          Op.f_stat e.f_stat :: (oe.2 ++ oc.2))
      else
        ({ s with datafile_state := { s.datafile_state with sd_log_opened := true } },
          Op.f_stat e.f_stat :: (oe.2 ++ oc.2))
    else
      let rr := sdc_resume_or_reset e s
      ({ rr.1 with datafile_state :=
          { rr.1.datafile_state with sd_log_opened := true, write_errors := 0 } },
        Op.f_stat e.f_stat :: (oe.2 ++ rr.2))
  else (s, [])

/-- The `switch(id)` of the logging block; the third component is `write_log`. -/
def sdc_switch (mpu_ds mpl_ds : Int) (c : Config) (e : Env) (s : State) (id : Nat) :
    State × List Op × Bool :=
  if id = MPU9150 then
    let s1 := { s with mpu_count := wrap_int32 (s.mpu_count + 1) }
    if s.mpu_count > mpu_ds then
      let d := s1.datafile_state.log_data
      let d1 : GENERIC_message :=
        { d with
          mh := { d.mh with ID := strncpy c.mpuid c.sizeof_ID,
                            data_length := c.sizeof_MPU9150_read_data },
          data := memcpy d.data e.mpu9150_current_read c.sizeof_MPU9150_read_data }
      ({ s1 with datafile_state := { s1.datafile_state with log_data := d1 },
                 mpu_count := 0 }, [], true)
    else (s1, [], false)
  else if id = MPL3115A2 then
    let s1 := { s with mpl_count := wrap_int32 (s.mpl_count + 1) }
    if s.mpl_count > mpl_ds then
      let d := s1.datafile_state.log_data
      let d1 : GENERIC_message :=
        { d with
          mh := { d.mh with ID := strncpy c.mplid c.sizeof_ID,
                            data_length := c.sizeof_MPL3115A2_read_data },
          data := memcpy d.data e.mpl3115a2_current_read c.sizeof_MPL3115A2_read_data }
      ({ s1 with datafile_state := { s1.datafile_state with log_data := d1 },
                 mpl_count := 0 }, [], true)
    else (s1, [], false)
  else if id = ADIS16405 then (s, [], false)
  else if id = SENSOR_LOG_HALT then
    let ops := if e.f_close_1 ≠ 0 then
        [Op.f_close e.f_close_1, Op.chThdSleepMilliseconds 5, Op.f_close e.f_close_2]
      else [Op.f_close e.f_close_1]
    ({ s with datafile_state := { s.datafile_state with sd_log_opened := false },
              fs_stop := true }, ops, false)
  else (s, [], false)

/-- The statement `++datafile_state.write_errors`. -/
def count_write_error (s : State) : State :=
  { s with datafile_state :=
      { s.datafile_state with write_errors := wrap_uint32 (s.datafile_state.write_errors + 1) } }

/-- The body of `if(write_log)`: write the record, count a failure, compute the checksum
over the whole staging record, write it, count a failure, refresh the debug shadow of the
cursor. -/
def sdc_write_record (c : Config) (e : Env) (s : State) : State × List Op :=
  let d := s.datafile_state.log_data
  let w1 := sdc_write_log_message e s
  let s2 := if w1.2 ≠ SDC_OK then count_write_error w1.1 else w1.1
  let crc16 := c.crc_finalize (c.crc_update c.crc_init (GENERIC_message_image c d))
  let w2 := sdc_write_checksum e s2
  let s4 := if w2.2 ≠ SDC_OK then count_write_error w2.1 else w2.1
  let s5 := if wrap_uint32 (s4.sdc_fp_index + 2 ^ 32 - wrap_uint32 s4.sdc_fp_index_old) > 100000
    then { s4 with sdc_fp_index_old := s4.sdc_fp_index } else s4
  (s5, [Op.sdc_write_log_message s.sdc_fp_index d w1.2,
        Op.sdc_write_checksum s2.sdc_fp_index crc16 w2.2])

/-- Head of the logging block: `mh.index = log_sequence++` and the time stamp. -/
def sdc_stamp_record (e : Env) (s : State) : State :=
  let d := s.datafile_state.log_data
  { s with datafile_state := { s.datafile_state with
      log_sequence := wrap_uint32 (s.datafile_state.log_sequence + 1),
      log_data := { d with
        mh := { d.mh with index := s.datafile_state.log_sequence, ts := e.ts },
        logtime := { tv_time := e.tv_time, tv_msec := e.tv_msec } } } }

/-- The logging block of `sdc_log_data` (its second `if` with the `else` branch). -/
def sdc_log_block (mpu_ds mpl_ds : Int) (c : Config) (e : Env) (s : State) (id : Nat) :
    State × List Op :=
  if e.fs_ready_log && s.datafile_state.sd_log_opened then
    let sw := sdc_switch mpu_ds mpl_ds c e (sdc_stamp_record e s) id
    let wr := if sw.2.2 then sdc_write_record c e sw.1 else (sw.1, [])
    (wr.1, Op.psas_rtc_get_unix_time e.rtc_rc :: (sw.2.1 ++ wr.2))
  else if s.datafile_state.sd_log_opened then
    ({ s with datafile_state := { s.datafile_state with sd_log_opened := false } },
      [Op.f_close e.f_close_1])
  else (s, [])

/-- The handler with the two downsample thresholds as arguments. -/
def sdc_log_data_at (mpu_ds mpl_ds : Int) (c : Config) (e : Env) (s : State) (id : Nat) :
    State × List Op :=
  if id = SENSOR_LOG_START then ({ s with fs_stop := false }, [])
  else
    let o := sdc_open_file e s
    let l := sdc_log_block mpu_ds mpl_ds c e o.1 id
    (l.1, o.2 ++ l.2)

/-- The handler `sdc_log_data` as shipped (both thresholds 30). -/
def sdc_log_data (c : Config) (e : Env) (s : State) (id : Nat) : State × List Op :=
  sdc_log_data_at mpu_downsample mpl_downsample c e s id

/-! ## The thread `sdlog_thread` -/

/-- State given by the static initialisers of the module. -/
def static_state (c : Config) : State where
  fs_stop := true
  datafile_state :=
    { log_sequence := 0
      write_errors := 0
      log_data :=
        { mh := { index := 0, ID := List.replicate c.sizeof_ID 0, ts := 0, data_length := 0 }
          logtime := { tv_time := 0, tv_msec := 0 }
          data := List.replicate c.sizeof_data 0 }
      sd_log_opened := false }
  mpu_count := 0
  mpl_count := 0
  sdc_fp_index := 0
  sdc_fp_index_old := 0

/-- Set-up of `sdlog_thread`, up to the dispatch loop: the returned option is the value
the thread returns when a check fails, `none` when it enters the loop. -/
def sdlog_thread_setup (c : Config) (s : State) : State × List Op × Option SDC_ERRORCode :=
  let s1 : State := { s with datafile_state := { s.datafile_state with
    log_sequence := 0, write_errors := 0, sd_log_opened := false } }
  let s2 := sdc_reset_fp_index s1
  let ops := [Op.sdc_reset_fp_index, Op.sdc_init_eod 0xa5]
  if wrap_uint32 (c.sizeof_GENERIC_message * 8) % 16 ≠ 0 then
    (s2, ops, some SDC_ASSERT_ERROR)
  else if c.sizeof_MPU9150_read_data > wrap_uint32 (c.sizeof_data + 2 ^ 32 - 1)
      ∨ c.sizeof_MPL3115A2_read_data > wrap_uint32 (c.sizeof_data + 2 ^ 32 - 1)
      ∨ c.sizeof_ADIS16405_burst_data > wrap_uint32 (c.sizeof_data + 2 ^ 32 - 1) then
    (s2, ops, some SDC_ASSERT_ERROR)
  else
    (s2, ops ++ [Op.chEvtRegister MPL3115A2, Op.chEvtRegister ADIS16405,
                 Op.chEvtRegister MPU9150, Op.chEvtRegister SENSOR_LOG_HALT,
                 Op.chEvtRegister SENSOR_LOG_START], none)

/-- Module state when the thread enters its dispatch loop. -/
def thread_start (c : Config) : State :=
  (sdlog_thread_setup c (static_state c)).1

/-- The event mask `ALL_EVENTS`. -/
abbrev ALL_EVENTS : Nat := 2 ^ 32 - 1

/-- Lowest event id whose flag is set in the mask `m`. -/
def lowest_flag (m : Nat) : Option Nat :=
  (List.range 32).find? (fun i => m.testBit i)

/-- One iteration of the dispatch loop of `sdlog_thread`.  `pending` holds the event
flags pending for the thread by the end of the wait.  `chEvtWaitOneTimeout` takes the
lowest pending flag allowed by its mask, or none on time-out, and `chEvtDispatch` calls
the handler registered for it; the table has five entries, all `sdc_log_data`. -/
def sdlog_thread_loop (c : Config) (e : Env) (s : State) (pending : Nat) :
    State × Nat × List Op :=
  let mask := if !s.fs_stop then ALL_EVENTS else 1 <<< SENSOR_LOG_START
  match lowest_flag (pending &&& mask) with
  | none => (s, pending, [])
  | some eid =>
    if eid < 5 then
      let r := sdc_log_data c e s eid
      (r.1, pending ^^^ (1 <<< eid), r.2)
    else (s, pending ^^^ (1 <<< eid), [])

/-! ## Runs -/

/-- The handler applied to a sequence of notifications, each with the outcomes of its
external calls; the result lists the calls issued by each invocation. -/
def run_at (mpu_ds mpl_ds : Int) (c : Config) :
    State → List (Env × Nat) → State × List (List Op)
  | s, [] => (s, [])
  | s, n :: rest =>
    let r := sdc_log_data_at mpu_ds mpl_ds c n.1 s n.2
    let t := run_at mpu_ds mpl_ds c r.1 rest
    (t.1, r.2 :: t.2)

/-- A run of the shipped handler. -/
def run (c : Config) (s : State) (ns : List (Env × Nat)) : State × List (List Op) :=
  run_at mpu_downsample mpl_downsample c s ns

/-- Is the call a record write. -/
def Op.is_record_write : Op → Bool
  | Op.sdc_write_log_message _ _ _ => true
  | _ => false

/-- Is the call a checksum write. -/
def Op.is_checksum_write : Op → Bool
  | Op.sdc_write_checksum _ _ _ => true
  | _ => false

/-- Is the call a write of either kind. -/
def Op.is_write (o : Op) : Bool := o.is_record_write || o.is_checksum_write

/-- Is the call an attempt to open the file. -/
def Op.is_open : Op → Bool
  | Op.f_open _ _ => true
  | _ => false

/-- Is the call a close of the file. -/
def Op.is_close : Op → Bool
  | Op.f_close _ => true
  | _ => false

/-- Sequence numbers (`mh.index`) of the records handed to the write step, in order. -/
def written_indices : List Op → List Nat
  | [] => []
  | Op.sdc_write_log_message _ d _ :: rest => d.mh.index :: written_indices rest
  | _ :: rest => written_indices rest

/-- Did the invocation with calls `ops` take a write decision (`write_log` set, so that
the record write is issued). -/
def write_decision (ops : List Op) : Bool := ops.any Op.is_record_write

/-- Sequence numbers of the records that were appended successfully: the record write
and the checksum write that follows it both returned `SDC_OK`. -/
def appended_indices : List Op → List Nat
  | [] => []
  | Op.sdc_write_log_message _ d SDC_OK :: Op.sdc_write_checksum _ _ SDC_OK :: rest =>
    d.mh.index :: appended_indices rest
  | _ :: rest => appended_indices rest

/-- Does every element of the list exceed its predecessor by exactly 1. -/
def increases_by_one : List Nat → Bool
  | x :: y :: rest => (y == x + 1) && increases_by_one (y :: rest)
  | _ => true

/-- Offsets at which the record writes of `ops` were issued, in order. -/
def record_write_offsets : List Op → List Nat
  | [] => []
  | Op.sdc_write_log_message off _ _ :: rest => off :: record_write_offsets rest
  | _ :: rest => record_write_offsets rest

/-- The open attempts among the calls `ops`, in order, each with its mode and result. -/
def open_attempts : List Op → List (OpenMode × FRESULT)
  | [] => []
  | Op.f_open m r :: rest => (m, r) :: open_attempts rest
  | _ :: rest => open_attempts rest

/-- The records handed to the write step among the calls `ops`, in order. -/
def written_records : List Op → List GENERIC_message
  | [] => []
  | Op.sdc_write_log_message _ d _ :: rest => d :: written_records rest
  | _ :: rest => written_records rest

/-- The checksums handed to the checksum write among the calls `ops`, in order. -/
def written_checksums : List Op → List Nat
  | [] => []
  | Op.sdc_write_checksum _ crc _ :: rest => crc :: written_checksums rest
  | _ :: rest => written_checksums rest

/-- The write decisions of the notifications of stream `sid`, in order, read off a run:
`ns` are the notifications and `tr` the calls issued by each of them. -/
def stream_decisions (sid : Nat) : List (Env × Nat) → List (List Op) → List Bool
  | n :: ns, ops :: tr =>
    if n.2 = sid then write_decision ops :: stream_decisions sid ns tr
    else stream_decisions sid ns tr
  | _, _ => []

/-- The write decisions of `k` successive notifications of one stream as a function of the
threshold `ds` and the value `m` of its downsample counter alone: the rule
`count++ > ds`, with the counter cleared on a write. -/
def downsample_decisions (ds : Int) : Int → Nat → List Bool
  | _, 0 => []
  | m, k + 1 =>
    decide (ds < m) ::
      downsample_decisions ds (if ds < m then 0 else wrap_int32 (m + 1)) k

/-- Is the notification a data notification processed with the medium ready at the
logging block. -/
def data_ready (n : Env × Nat) : Prop :=
  (n.2 = MPU9150 ∨ n.2 = MPL3115A2 ∨ n.2 = ADIS16405) ∧ n.1.fs_ready_log = true

/-- Did the invocation with calls `ops` enter the logging block (it reads the clock
there and nowhere else). -/
def entered_log_block (ops : List Op) : Bool :=
  ops.any (fun o => match o with
    | Op.psas_rtc_get_unix_time _ => true
    | _ => false)

/-- Does the invocation open the log file in place: it is not a start-control, the medium
is ready at the first guard, the store is closed, and one of the two in-place attempts
succeeds. -/
def reopens_in_place (e : Env) (s : State) (id : Nat) : Bool :=
  decide (id ≠ SENSOR_LOG_START) && e.fs_ready_open && !s.datafile_state.sd_log_opened
    && decide ((f_open_existing_retry e).1 = 0)

/-- Does the invocation enter the logging block: it is not a start-control and, after the
opening procedure, the medium is ready and the store is open. -/
def logs (e : Env) (s : State) (id : Nat) : Bool :=
  decide (id ≠ SENSOR_LOG_START) && e.fs_ready_log
    && (sdc_open_file e s).1.datafile_state.sd_log_opened

/-! ## A concrete configuration and environments for evaluation -/

/-- A small configuration: 4-byte tag, 6-byte and 4-byte samples, 8 payload bytes, a
checksum that adds the bytes modulo 65536. -/
def demo_config : Config where
  sizeof_MPU9150_read_data := 6
  sizeof_MPL3115A2_read_data := 4
  sizeof_ADIS16405_burst_data := 6
  sizeof_data := 8
  sizeof_ID := 4
  sizeof_GENERIC_message := 24
  mpuid := [77, 80, 85, 57, 0]
  mplid := [77, 80, 76, 51, 0]
  head_image := fun mh lt => [mh.index % 256, mh.ts % 256, mh.data_length % 256,
    lt.tv_time % 256, lt.tv_msec % 256] ++ mh.ID
  crc_init := 0
  crc_update := fun st bytes => (st + bytes.sum) % 65536
  crc_finalize := fun st => st

/-- Outcomes of one invocation in which the medium is ready and every call succeeds. -/
def env_ok : Env where
  fs_ready_open := true
  fs_ready_log := true
  f_stat := 0
  f_open_existing_1 := 0
  f_open_existing_2 := 0
  f_open_create_1 := 0
  f_open_create_2 := 0
  seek_eod := SDC_OK
  eod_offset := 0
  rtc_rc := 0
  tv_time := 0
  tv_msec := 0
  ts := 0
  mpu9150_current_read := [1, 2, 3, 4, 5, 6]
  mpl3115a2_current_read := [7, 8, 9, 10]
  write_log_message := SDC_OK
  write_log_message_advance := 22
  write_checksum := SDC_OK
  write_checksum_advance := 2
  f_close_1 := 0
  f_close_2 := 0

/-- A start-control followed by `k` stream-A notifications, every call succeeding. -/
def start_then_mpu (k : Nat) : List (Env × Nat) :=
  (env_ok, SENSOR_LOG_START) :: List.replicate k (env_ok, MPU9150)

/-- The state after the opening procedure has succeeded from thread start. -/
def demo_open_state : State := (sdc_open_file env_ok (thread_start demo_config)).1

/-- Outcomes of one invocation in which the record write fails, without moving the
cursor, and every other call succeeds. -/
def env_record_fail : Env :=
  { env_ok with write_log_message := SDC_FAILURE 1, write_log_message_advance := 0 }

/-- Outcomes of one invocation in which the medium is not ready. -/
def env_not_ready : Env := { env_ok with fs_ready_open := false, fs_ready_log := false }

/-- Outcomes of one invocation in which the medium is ready and all four open attempts
fail. -/
def env_open_fail : Env :=
  { env_ok with f_open_existing_1 := 4, f_open_existing_2 := 4,
                f_open_create_1 := 1, f_open_create_2 := 1 }

/-- One shift step of a bitwise reflected 16-bit CRC with polynomial `0xA001`. -/
def crc16_shift (x : Nat) : Nat :=
  if x % 2 = 1 then (x / 2) ^^^ 0xA001 else x / 2

/-- A byte folded into the CRC register: eight shift steps. -/
def crc16_byte (crc byte : Nat) : Nat :=
  crc16_shift (crc16_shift (crc16_shift (crc16_shift
    (crc16_shift (crc16_shift (crc16_shift (crc16_shift (crc ^^^ byte))))))))

/-- The small configuration with a 16-bit CRC as its checksum engine. -/
def crc_config : Config :=
  { demo_config with
    crc_init := 0
    crc_update := fun st bytes => bytes.foldl crc16_byte st
    crc_finalize := fun st => st }

/-- A start-control, 32 notifications of the stream `first`, then 32 stream-B
notifications, every call succeeding. -/
def start_then_two_streams (first : Nat) : List (Env × Nat) :=
  (env_ok, SENSOR_LOG_START) ::
    (List.replicate 32 (env_ok, first) ++ List.replicate 32 (env_ok, MPL3115A2))

/-- The state reached from thread start by a start-control, 31 stream-A notifications and
a notification that finds the medium not ready: the stream-A counter is 31 and the store
has been closed again. -/
def demo_closed_state : State :=
  (run demo_config (thread_start demo_config)
    (start_then_mpu 31 ++ [(env_not_ready, ADIS16405)])).1

/-! ## Frame lemmas for the parts of the handler -/

theorem resume_frame (e : Env) (s : State) :
    (sdc_resume_or_reset e s).1.fs_stop = s.fs_stop ∧
    (sdc_resume_or_reset e s).1.mpu_count = s.mpu_count ∧
    (sdc_resume_or_reset e s).1.mpl_count = s.mpl_count ∧
    (sdc_resume_or_reset e s).1.sdc_fp_index_old = s.sdc_fp_index_old ∧
    (sdc_resume_or_reset e s).1.datafile_state = s.datafile_state := by
  unfold sdc_resume_or_reset sdc_seek_eod sdc_reset_fp_index
  split_ifs <;> simp_all

theorem open_frame (e : Env) (s : State) :
    (sdc_open_file e s).1.fs_stop = s.fs_stop ∧
    (sdc_open_file e s).1.mpu_count = s.mpu_count ∧
    (sdc_open_file e s).1.mpl_count = s.mpl_count ∧
    (sdc_open_file e s).1.sdc_fp_index_old = s.sdc_fp_index_old ∧
    (sdc_open_file e s).1.datafile_state.log_sequence = s.datafile_state.log_sequence ∧
    (sdc_open_file e s).1.datafile_state.log_data = s.datafile_state.log_data := by
  unfold sdc_open_file
  dsimp only
  split_ifs <;> simp [resume_frame]

theorem open_no_write (e : Env) (s : State) :
    ∀ o ∈ (sdc_open_file e s).2, o.is_write = false := by
  unfold sdc_open_file f_open_existing_retry f_open_create_retry sdc_resume_or_reset sdc_seek_eod
  dsimp only
  split_ifs <;> simp [Op.is_write, Op.is_record_write, Op.is_checksum_write]

theorem open_not_entered (e : Env) (s : State) :
    entered_log_block (sdc_open_file e s).2 = false := by
  unfold sdc_open_file f_open_existing_retry f_open_create_retry sdc_resume_or_reset sdc_seek_eod
  dsimp only
  split_ifs <;> simp [entered_log_block]

theorem switch_frame (a b : Int) (c : Config) (e : Env) (s : State) (id : Nat) :
    (sdc_switch a b c e s id).1.datafile_state.log_sequence = s.datafile_state.log_sequence ∧
    (sdc_switch a b c e s id).1.datafile_state.write_errors = s.datafile_state.write_errors ∧
    (sdc_switch a b c e s id).1.datafile_state.log_data.mh.index
      = s.datafile_state.log_data.mh.index ∧
    (sdc_switch a b c e s id).1.sdc_fp_index = s.sdc_fp_index ∧
    (sdc_switch a b c e s id).1.sdc_fp_index_old = s.sdc_fp_index_old ∧
    (sdc_switch a b c e s id).1.datafile_state.sd_log_opened
      = (if id = SENSOR_LOG_HALT then false else s.datafile_state.sd_log_opened) ∧
    (sdc_switch a b c e s id).1.fs_stop = (if id = SENSOR_LOG_HALT then true else s.fs_stop) := by
  unfold sdc_switch
  dsimp only
  split_ifs <;> simp_all

theorem switch_ops (a b : Int) (c : Config) (e : Env) (s : State) (id : Nat) :
    (sdc_switch a b c e s id).2.1 =
      (if id = SENSOR_LOG_HALT then
        (if e.f_close_1 ≠ 0 then
          [Op.f_close e.f_close_1, Op.chThdSleepMilliseconds 5, Op.f_close e.f_close_2]
        else [Op.f_close e.f_close_1])
      else []) := by
  unfold sdc_switch
  dsimp only
  split_ifs <;> simp_all

theorem switch_write_log (a b : Int) (c : Config) (e : Env) (s : State) (id : Nat) :
    (sdc_switch a b c e s id).2.2 =
      decide ((id = MPU9150 ∧ a < s.mpu_count) ∨ (id = MPL3115A2 ∧ b < s.mpl_count)) := by
  unfold sdc_switch
  dsimp only
  split_ifs <;> simp_all

theorem write_record_frame (c : Config) (e : Env) (s : State) :
    (sdc_write_record c e s).1.fs_stop = s.fs_stop ∧
    (sdc_write_record c e s).1.mpu_count = s.mpu_count ∧
    (sdc_write_record c e s).1.mpl_count = s.mpl_count ∧
    (sdc_write_record c e s).1.datafile_state.log_sequence = s.datafile_state.log_sequence ∧
    (sdc_write_record c e s).1.datafile_state.log_data = s.datafile_state.log_data ∧
    (sdc_write_record c e s).1.datafile_state.sd_log_opened = s.datafile_state.sd_log_opened := by
  unfold sdc_write_record sdc_write_log_message sdc_write_checksum count_write_error
  dsimp only
  split_ifs <;> simp_all

theorem write_record_ops (c : Config) (e : Env) (s : State) :
    (sdc_write_record c e s).2 =
      [Op.sdc_write_log_message s.sdc_fp_index s.datafile_state.log_data e.write_log_message,
       Op.sdc_write_checksum
        (wrap_uint32 (s.sdc_fp_index + e.write_log_message_advance))
        (c.crc_finalize (c.crc_update c.crc_init (GENERIC_message_image c s.datafile_state.log_data)))
        e.write_checksum] := by
  unfold sdc_write_record sdc_write_log_message sdc_write_checksum count_write_error
  dsimp only
  split_ifs <;> simp_all

theorem stamp_frame (e : Env) (s : State) :
    (sdc_stamp_record e s).fs_stop = s.fs_stop ∧
    (sdc_stamp_record e s).mpu_count = s.mpu_count ∧
    (sdc_stamp_record e s).mpl_count = s.mpl_count ∧
    (sdc_stamp_record e s).sdc_fp_index = s.sdc_fp_index ∧
    (sdc_stamp_record e s).sdc_fp_index_old = s.sdc_fp_index_old ∧
    (sdc_stamp_record e s).datafile_state.write_errors = s.datafile_state.write_errors ∧
    (sdc_stamp_record e s).datafile_state.sd_log_opened = s.datafile_state.sd_log_opened ∧
    (sdc_stamp_record e s).datafile_state.log_sequence
      = wrap_uint32 (s.datafile_state.log_sequence + 1) ∧
    (sdc_stamp_record e s).datafile_state.log_data.mh.index = s.datafile_state.log_sequence := by
  simp [sdc_stamp_record]

theorem block_entered (a b : Int) (c : Config) (e : Env) (s : State) (id : Nat) :
    entered_log_block (sdc_log_block a b c e s id).2
      = (e.fs_ready_log && s.datafile_state.sd_log_opened) := by
  unfold sdc_log_block
  dsimp only
  split_ifs with h1 h2 h3
  · simp [entered_log_block, h1]
  · simp [entered_log_block, h1]
  · simp_all [entered_log_block]
  · simp_all [entered_log_block]

theorem block_seq (a b : Int) (c : Config) (e : Env) (s : State) (id : Nat) :
    (sdc_log_block a b c e s id).1.datafile_state.log_sequence =
      if (e.fs_ready_log && s.datafile_state.sd_log_opened) = true then
        wrap_uint32 (s.datafile_state.log_sequence + 1)
      else s.datafile_state.log_sequence := by
  unfold sdc_log_block
  dsimp only
  split_ifs <;> simp [write_record_frame, switch_frame, stamp_frame]

theorem block_index (a b : Int) (c : Config) (e : Env) (s : State) (id : Nat)
    (off : Nat) (d : GENERIC_message) (r : SDC_ERRORCode)
    (h : Op.sdc_write_log_message off d r ∈ (sdc_log_block a b c e s id).2) :
    d.mh.index = s.datafile_state.log_sequence := by
  unfold sdc_log_block at h
  dsimp only at h
  split_ifs at h with h1 h2 h3
  · simp [write_record_ops, switch_ops] at h
    split_ifs at h <;> simp at h
    all_goals simp [h.2.1, switch_frame, stamp_frame]
  · simp [switch_ops] at h
    split_ifs at h <;> simp at h
  · simp at h
  · simp at h

theorem switch_counts (a b : Int) (c : Config) (e : Env) (s : State) (id : Nat) :
    (sdc_switch a b c e s id).1.mpu_count =
      (if id = MPU9150 then (if a < s.mpu_count then 0 else wrap_int32 (s.mpu_count + 1))
       else s.mpu_count) ∧
    (sdc_switch a b c e s id).1.mpl_count =
      (if id = MPL3115A2 then (if b < s.mpl_count then 0 else wrap_int32 (s.mpl_count + 1))
       else s.mpl_count) := by
  unfold sdc_switch
  dsimp only
  split_ifs <;> simp_all

theorem open_noop (e : Env) (s : State) (h : s.datafile_state.sd_log_opened = true) :
    sdc_open_file e s = (s, []) := by
  simp [sdc_open_file, h]

theorem block_decision (a b : Int) (c : Config) (e : Env) (s : State) (id : Nat) :
    write_decision (sdc_log_block a b c e s id).2 =
      ((e.fs_ready_log && s.datafile_state.sd_log_opened) &&
        decide ((id = MPU9150 ∧ a < s.mpu_count) ∨ (id = MPL3115A2 ∧ b < s.mpl_count))) := by
  unfold sdc_log_block
  dsimp only
  rw [switch_write_log, switch_ops]
  simp only [stamp_frame]
  split_ifs with h1 h2 h3 h4 h5 h6 <;>
    simp_all [write_decision, Op.is_record_write, write_record_ops]

theorem block_counts (a b : Int) (c : Config) (e : Env) (s : State) (id : Nat) :
    (sdc_log_block a b c e s id).1.mpu_count =
      (if (e.fs_ready_log && s.datafile_state.sd_log_opened) = true ∧ id = MPU9150 then
        (if a < s.mpu_count then 0 else wrap_int32 (s.mpu_count + 1))
       else s.mpu_count) ∧
    (sdc_log_block a b c e s id).1.mpl_count =
      (if (e.fs_ready_log && s.datafile_state.sd_log_opened) = true ∧ id = MPL3115A2 then
        (if b < s.mpl_count then 0 else wrap_int32 (s.mpl_count + 1))
       else s.mpl_count) := by
  unfold sdc_log_block
  dsimp only
  split_ifs <;> simp_all [write_record_frame, switch_counts, stamp_frame]

theorem block_opened (a b : Int) (c : Config) (e : Env) (s : State) (id : Nat) :
    (sdc_log_block a b c e s id).1.datafile_state.sd_log_opened =
      ((e.fs_ready_log && s.datafile_state.sd_log_opened) && decide (id ≠ SENSOR_LOG_HALT)) := by
  unfold sdc_log_block
  dsimp only
  split_ifs <;> simp_all [write_record_frame, switch_frame, stamp_frame]

theorem block_fs_stop (a b : Int) (c : Config) (e : Env) (s : State) (id : Nat) :
    (sdc_log_block a b c e s id).1.fs_stop =
      (if (e.fs_ready_log && s.datafile_state.sd_log_opened) = true ∧ id = SENSOR_LOG_HALT
       then true else s.fs_stop) := by
  unfold sdc_log_block
  dsimp only
  split_ifs <;> simp_all [write_record_frame, switch_frame, stamp_frame]

theorem write_record_errors (c : Config) (e : Env) (s : State) :
    (sdc_write_record c e s).1.datafile_state.write_errors =
      (if e.write_checksum = SDC_OK then
        (if e.write_log_message = SDC_OK then s.datafile_state.write_errors
         else wrap_uint32 (s.datafile_state.write_errors + 1))
       else
        wrap_uint32 ((if e.write_log_message = SDC_OK then s.datafile_state.write_errors
          else wrap_uint32 (s.datafile_state.write_errors + 1)) + 1)) := by
  unfold sdc_write_record sdc_write_log_message sdc_write_checksum count_write_error
  dsimp only
  split_ifs <;> simp_all

theorem write_record_cursor (c : Config) (e : Env) (s : State) :
    (sdc_write_record c e s).1.sdc_fp_index =
      wrap_uint32 (wrap_uint32 (s.sdc_fp_index + e.write_log_message_advance)
        + e.write_checksum_advance) := by
  unfold sdc_write_record sdc_write_log_message sdc_write_checksum count_write_error
  dsimp only
  split_ifs <;> simp_all

theorem open_errors (e : Env) (s : State) :
    (sdc_open_file e s).1.datafile_state.write_errors =
      (if (e.fs_ready_open && !s.datafile_state.sd_log_opened) = true
          ∧ (f_open_existing_retry e).1 = 0 then 0
       else s.datafile_state.write_errors) := by
  unfold sdc_open_file
  dsimp only
  split_ifs <;> simp_all

theorem wrap_uint32_succ_small (x : Nat) (h : x + 1 < 2 ^ 32) : wrap_uint32 (x + 1) = x + 1 := by
  unfold wrap_uint32
  exact Nat.mod_eq_of_lt h

theorem write_record_errors_bounds (c : Config) (e : Env) (s : State)
    (h : s.datafile_state.write_errors + 2 < 2 ^ 32) :
    s.datafile_state.write_errors ≤ (sdc_write_record c e s).1.datafile_state.write_errors ∧
    (sdc_write_record c e s).1.datafile_state.write_errors
      ≤ s.datafile_state.write_errors + 2 := by
  rw [write_record_errors]
  have h1 := wrap_uint32_succ_small s.datafile_state.write_errors (by omega)
  have h2 := wrap_uint32_succ_small (s.datafile_state.write_errors + 1) (by omega)
  split_ifs <;> (try simp only [h1, h2]) <;> omega

theorem block_errors_bounds (a b : Int) (c : Config) (e : Env) (s : State) (id : Nat)
    (h : s.datafile_state.write_errors + 2 < 2 ^ 32) :
    s.datafile_state.write_errors ≤ (sdc_log_block a b c e s id).1.datafile_state.write_errors ∧
    (sdc_log_block a b c e s id).1.datafile_state.write_errors
      ≤ s.datafile_state.write_errors + 2 := by
  unfold sdc_log_block
  dsimp only
  have hsw : (sdc_switch a b c e (sdc_stamp_record e s) id).1.datafile_state.write_errors
      = s.datafile_state.write_errors := by
    simp [switch_frame, stamp_frame]
  split_ifs
  · have := write_record_errors_bounds c e (sdc_switch a b c e (sdc_stamp_record e s) id).1
      (by rw [hsw]; exact h)
    rw [hsw] at this
    exact this
  · simp only [hsw]; omega
  · simp
  · simp

theorem block_write_guard (a b : Int) (c : Config) (e : Env) (s : State) (id : Nat)
    (o : Op) (ho : o ∈ (sdc_log_block a b c e s id).2) (hw : o.is_write = true) :
    e.fs_ready_log = true ∧ s.datafile_state.sd_log_opened = true := by
  unfold sdc_log_block at ho
  dsimp only at ho
  split_ifs at ho with h1 h2
  · simpa using h1
  · simpa using h1
  · simp at ho
    subst ho
    simp [Op.is_write, Op.is_record_write, Op.is_checksum_write] at hw
  · simp at ho

theorem open_all_fail (e : Env) (s : State)
    (hr : e.fs_ready_open = true) (hc : s.datafile_state.sd_log_opened = false)
    (h1 : e.f_open_existing_1 ≠ 0) (h2 : e.f_open_existing_2 ≠ 0)
    (h3 : e.f_open_create_1 ≠ 0) (h4 : e.f_open_create_2 ≠ 0) :
    sdc_open_file e s =
      ({ s with datafile_state := { s.datafile_state with sd_log_opened := false } },
       [Op.f_stat e.f_stat, Op.f_open OpenMode.existing e.f_open_existing_1,
        Op.chThdSleepMilliseconds 500, Op.f_open OpenMode.existing e.f_open_existing_2,
        Op.f_open OpenMode.create_always e.f_open_create_1,
        Op.f_open OpenMode.create_always e.f_open_create_2]) := by
  simp [sdc_open_file, f_open_existing_retry, f_open_create_retry, hr, hc, h1, h2, h3, h4]

theorem open_attempted (e : Env) (s : State)
    (hr : e.fs_ready_open = true) (hc : s.datafile_state.sd_log_opened = false) :
    ∃ rest, (sdc_open_file e s).2
      = Op.f_stat e.f_stat :: Op.f_open OpenMode.existing e.f_open_existing_1 :: rest := by
  unfold sdc_open_file f_open_existing_retry
  dsimp only
  split_ifs <;> simp_all

/-! ## One invocation of the handler -/

theorem step_entered (a b : Int) (c : Config) (e : Env) (s : State) (id : Nat) :
    entered_log_block (sdc_log_data_at a b c e s id).2
      = (decide (id ≠ SENSOR_LOG_START) && e.fs_ready_log
          && (sdc_open_file e s).1.datafile_state.sd_log_opened) := by
  unfold sdc_log_data_at
  dsimp only
  split_ifs with h
  · simp [entered_log_block, h]
  · simp only [entered_log_block, List.any_append] at *
    have h1 := open_not_entered e s
    have h2 := block_entered a b c e (sdc_open_file e s).1 id
    simp only [entered_log_block] at h1 h2
    rw [h1, h2]
    simp [h]

theorem step_seq (a b : Int) (c : Config) (e : Env) (s : State) (id : Nat) :
    (sdc_log_data_at a b c e s id).1.datafile_state.log_sequence =
      if entered_log_block (sdc_log_data_at a b c e s id).2 = true then
        wrap_uint32 (s.datafile_state.log_sequence + 1)
      else s.datafile_state.log_sequence := by
  rw [step_entered]
  by_cases h : id = SENSOR_LOG_START
  · simp [sdc_log_data_at, h]
  · simp [sdc_log_data_at, h, block_seq, open_frame]

theorem step_index (a b : Int) (c : Config) (e : Env) (s : State) (id : Nat)
    (off : Nat) (d : GENERIC_message) (r : SDC_ERRORCode)
    (h : Op.sdc_write_log_message off d r ∈ (sdc_log_data_at a b c e s id).2) :
    d.mh.index = s.datafile_state.log_sequence := by
  unfold sdc_log_data_at at h
  dsimp only at h
  split_ifs at h with h0
  · simp at h
  · rcases List.mem_append.mp h with h1 | h1
    · have := open_no_write e s _ h1
      simp [Op.is_write, Op.is_record_write] at this
    · rw [block_index a b c e _ id off d r h1]
      exact (open_frame e s).2.2.2.2.1

theorem step_start (a b : Int) (c : Config) (e : Env) (s : State) :
    sdc_log_data_at a b c e s SENSOR_LOG_START = ({ s with fs_stop := false }, []) := by
  simp [sdc_log_data_at]

theorem step_write_guard (a b : Int) (c : Config) (e : Env) (s : State) (id : Nat)
    (o : Op) (ho : o ∈ (sdc_log_data_at a b c e s id).2) (hw : o.is_write = true) :
    logs e s id = true := by
  unfold sdc_log_data_at at ho
  dsimp only at ho
  split_ifs at ho with h0
  · simp at ho
  · rcases List.mem_append.mp ho with h1 | h1
    · have := open_no_write e s o h1
      rw [this] at hw
      exact absurd hw (by simp)
    · have := block_write_guard a b c e _ id o h1 hw
      simp [logs, h0, this.1, this.2]

theorem step_opened (a b : Int) (c : Config) (e : Env) (s : State) (id : Nat) :
    (sdc_log_data_at a b c e s id).1.datafile_state.sd_log_opened =
      (if id = SENSOR_LOG_START then s.datafile_state.sd_log_opened
       else (logs e s id && decide (id ≠ SENSOR_LOG_HALT))) := by
  by_cases h : id = SENSOR_LOG_START
  · simp [sdc_log_data_at, h]
  · simp [sdc_log_data_at, h, block_opened, logs]

theorem step_fs_stop (a b : Int) (c : Config) (e : Env) (s : State) (id : Nat) :
    (sdc_log_data_at a b c e s id).1.fs_stop =
      (if id = SENSOR_LOG_START then false
       else if logs e s id = true ∧ id = SENSOR_LOG_HALT then true else s.fs_stop) := by
  by_cases h : id = SENSOR_LOG_START
  · simp [sdc_log_data_at, h]
  · simp [sdc_log_data_at, h, block_fs_stop, logs, open_frame]

theorem step_errors_no_reopen (a b : Int) (c : Config) (e : Env) (s : State) (id : Nat)
    (hn : reopens_in_place e s id = false)
    (h : s.datafile_state.write_errors + 2 < 2 ^ 32) :
    s.datafile_state.write_errors
      ≤ (sdc_log_data_at a b c e s id).1.datafile_state.write_errors := by
  by_cases h0 : id = SENSOR_LOG_START
  · simp [sdc_log_data_at, h0]
  · have he : (sdc_open_file e s).1.datafile_state.write_errors
        = s.datafile_state.write_errors := by
      rw [open_errors]
      split_ifs with hg
      · exfalso
        simp [reopens_in_place, h0] at hn
        simp at hg
        exact hn hg.1.1 hg.1.2 hg.2
      · rfl
    have hb := block_errors_bounds a b c e (sdc_open_file e s).1 id (by rw [he]; exact h)
    rw [he] at hb
    simpa [sdc_log_data_at, h0] using hb.1

theorem step_errors_reopen (a b : Int) (c : Config) (e : Env) (s : State) (id : Nat)
    (hn : reopens_in_place e s id = true) :
    (sdc_open_file e s).1.datafile_state.write_errors = 0 ∧
    (sdc_log_data_at a b c e s id).1.datafile_state.write_errors ≤ 2 := by
  simp [reopens_in_place] at hn
  obtain ⟨⟨⟨h0, h1⟩, h2⟩, h3⟩ := hn
  have he : (sdc_open_file e s).1.datafile_state.write_errors = 0 := by
    rw [open_errors]; simp [h1, h2, h3]
  have hb := block_errors_bounds a b c e (sdc_open_file e s).1 id (by rw [he]; norm_num)
  rw [he] at hb
  refine ⟨he, ?_⟩
  simpa [sdc_log_data_at, h0] using hb.2

/-! ## Runs -/

theorem run_index (a b : Int) (c : Config) :
    ∀ (ns : List (Env × Nat)) (s : State) (i : Nat) (ops : List Op) (off : Nat)
      (d : GENERIC_message) (r : SDC_ERRORCode),
      s.datafile_state.log_sequence < 2 ^ 32 →
      (run_at a b c s ns).2[i]? = some ops →
      Op.sdc_write_log_message off d r ∈ ops →
      d.mh.index = (s.datafile_state.log_sequence
        + List.countP entered_log_block ((run_at a b c s ns).2.take i)) % 2 ^ 32 := by
  intro ns
  induction ns with
  | nil => intro s i ops off d r _ h; simp [run_at] at h
  | cons n rest ih =>
    intro s i ops off d r hs h hm
    cases i with
    | zero =>
      simp only [run_at, List.getElem?_cons_zero, Option.some.injEq] at h
      subst h
      rw [step_index a b c n.1 s n.2 off d r hm]
      simp only [List.take_zero, List.countP_nil, Nat.add_zero]
      exact (Nat.mod_eq_of_lt hs).symm
    | succ j =>
      simp only [run_at, List.getElem?_cons_succ] at h
      have hseq := step_seq a b c n.1 s n.2
      have hlt : (sdc_log_data_at a b c n.1 s n.2).1.datafile_state.log_sequence < 2 ^ 32 := by
        rw [hseq]; split_ifs
        · exact Nat.mod_lt _ (by norm_num)
        · exact hs
      rw [ih _ j ops off d r hlt h hm]
      simp only [run_at, List.take_succ_cons, List.countP_cons, hseq]
      split_ifs with he
      · simp only [wrap_uint32]; omega
      · simp

theorem thread_start_seq (c : Config) : (thread_start c).datafile_state.log_sequence = 0 := by
  unfold thread_start sdlog_thread_setup
  dsimp only
  split_ifs <;> rfl

theorem run_at_length (a b : Int) (c : Config) :
    ∀ (ns : List (Env × Nat)) (s : State), (run_at a b c s ns).2.length = ns.length := by
  intro ns
  induction ns with
  | nil => intro s; rfl
  | cons n rest ih => intro s; simp [run_at, ih]

/-! ## Downsampling of one stream -/

theorem wrap_int32_small (x : Int) (h0 : 0 ≤ x) (h1 : x < 2 ^ 31) : wrap_int32 x = x := by
  unfold wrap_int32
  omega

/-- One stream-A notification handled with the store open and the medium ready. -/
theorem step_mpu_open (a b : Int) (c : Config) (e : Env) (s : State)
    (ho : s.datafile_state.sd_log_opened = true) (hr : e.fs_ready_log = true) :
    (sdc_log_data_at a b c e s MPU9150).1.datafile_state.sd_log_opened = true ∧
    (sdc_log_data_at a b c e s MPU9150).1.mpu_count
      = (if a < s.mpu_count then 0 else wrap_int32 (s.mpu_count + 1)) ∧
    write_decision (sdc_log_data_at a b c e s MPU9150).2 = decide (a < s.mpu_count) := by
  simp [sdc_log_data_at, open_noop e s ho, block_opened, block_counts, block_decision, ho, hr]

theorem mpu_period_general (N : Nat) (hN : N + 2 < 2 ^ 31) (b : Int) (c : Config) :
    ∀ (ns : List (Env × Nat)) (s : State) (m : Nat),
      m < N + 2 → s.mpu_count = (m : Int) → s.datafile_state.sd_log_opened = true →
      (∀ n ∈ ns, n.2 = MPU9150 ∧ n.1.fs_ready_log = true) →
      (run_at (N : Int) b c s ns).2.map write_decision
          = (List.range ns.length).map (fun j => decide ((N + 2) ∣ (m + j + 1))) ∧
      List.countP write_decision (run_at (N : Int) b c s ns).2 = (m + ns.length) / (N + 2) := by
  intro ns
  induction ns with
  | nil =>
    intro s m hm _ _ _
    simp [run_at, Nat.div_eq_of_lt hm]
  | cons n rest ih =>
    intro s m hm hc ho hns
    obtain ⟨hid, hr⟩ := hns n (List.mem_cons_self _ _)
    have hrest : ∀ n ∈ rest, n.2 = MPU9150 ∧ n.1.fs_ready_log = true :=
      fun x hx => hns x (List.mem_cons_of_mem _ hx)
    obtain ⟨h1, h2, h3⟩ := step_mpu_open (N : Int) b c n.1 s ho hr
    rw [← hid] at h1 h2 h3
    rw [hc] at h2 h3
    by_cases hlt : N < m
    · have hm1 : m = N + 1 := by omega
      have hlt' : (N : Int) < (m : Int) := by exact_mod_cast hlt
      rw [if_pos hlt'] at h2
      obtain ⟨ih1, ih2⟩ := ih _ 0 (by omega) (by simpa using h2) h1 hrest
      constructor
      · simp only [run_at, List.map_cons, List.length_cons, List.range_succ_eq_map,
          List.map_map, ih1, h3]
        congr 1
        · simp [hlt', hm1]
        · apply List.map_congr_left
          intro j _
          simp only [Function.comp, hm1, Nat.zero_add]
          have : N + 1 + (j + 1) + 1 = (j + 1) + (N + 2) := by omega
          rw [this]
          simp
      · have hd : decide ((N : Int) < (m : Int)) = true := by simpa using hlt'
        simp only [run_at, List.countP_cons, ih2, h3, List.length_cons, hd, if_true]
        have : m + (rest.length + 1) = rest.length + (N + 2) := by omega
        rw [this, Nat.add_div_right _ (by omega), Nat.zero_add]
    · have hlt' : ¬ (N : Int) < (m : Int) := by exact_mod_cast hlt
      rw [if_neg hlt', wrap_int32_small _ (by omega) (by omega)] at h2
      obtain ⟨ih1, ih2⟩ := ih _ (m + 1) (by omega) (by simpa using h2) h1 hrest
      have hnd : ¬ (N + 2) ∣ (m + 1) := by
        intro hd
        have := Nat.le_of_dvd (by omega) hd
        omega
      constructor
      · simp only [run_at, List.map_cons, List.length_cons, List.range_succ_eq_map,
          List.map_map, ih1, h3]
        congr 1
        · simp [hlt', hnd]
        · apply List.map_congr_left
          intro j _
          simp only [Function.comp]
          have : m + (j + 1) + 1 = m + 1 + j + 1 := by omega
          rw [this]
      · have hd : decide ((N : Int) < (m : Int)) = false := by simpa using hlt'
        simp only [run_at, List.countP_cons, ih2, h3, List.length_cons, hd]
        have : m + (rest.length + 1) = m + 1 + rest.length := by omega
        rw [this]
        simp

theorem wrap_int32_range (x : Int) : -2 ^ 31 ≤ wrap_int32 x ∧ wrap_int32 x < 2 ^ 31 := by
  unfold wrap_int32
  omega

/-- With the threshold at the largest `int32_t` value the rule `count++ > N` never fires. -/
theorem mpu_never_writes_at_int32_max (b : Int) (c : Config) :
    ∀ (ns : List (Env × Nat)) (s : State),
      s.mpu_count < 2 ^ 31 → s.datafile_state.sd_log_opened = true →
      (∀ n ∈ ns, n.2 = MPU9150 ∧ n.1.fs_ready_log = true) →
      List.countP write_decision (run_at 2147483647 b c s ns).2 = 0 := by
  intro ns
  induction ns with
  | nil => intro s _ _ _; rfl
  | cons n rest ih =>
    intro s hm ho hns
    obtain ⟨hid, hr⟩ := hns n (List.mem_cons_self _ _)
    obtain ⟨h1, h2, h3⟩ := step_mpu_open 2147483647 b c n.1 s ho hr
    rw [← hid] at h1 h2 h3
    have hlt : ¬ (2147483647 : Int) < s.mpu_count := by omega
    rw [if_neg hlt] at h2
    have hd : decide ((2147483647 : Int) < s.mpu_count) = false := by simpa using hlt
    have hnext : (sdc_log_data_at 2147483647 b c n.1 s n.2).1.mpu_count < 2 ^ 31 := by
      rw [h2]
      exact (wrap_int32_range _).2
    have := ih _ hnext h1 (fun x hx => hns x (List.mem_cons_of_mem _ hx))
    simp only [run_at, List.countP_cons, this, h3, hd]
    rfl

/-! ## The dispatch loop -/

theorem start_mask_testBit (pending i : Nat) :
    (pending &&& 1 <<< SENSOR_LOG_START).testBit i
      = (decide (i = 4) && pending.testBit 4) := by
  have h16 : (1 <<< SENSOR_LOG_START : Nat) = 2 ^ 4 := by decide
  rw [Nat.testBit_and, h16, Nat.testBit_two_pow]
  by_cases h : i = 4
  · subst h; simp
  · have h' : ¬ 4 = i := fun x => h x.symm
    simp [h, h']

theorem lowest_flag_start_mask (pending : Nat) :
    lowest_flag (pending &&& 1 <<< SENSOR_LOG_START)
      = (if pending.testBit 4 = true then some 4 else none) := by
  unfold lowest_flag
  have hf : (fun i => (pending &&& 1 <<< SENSOR_LOG_START).testBit i)
      = (fun i => decide (i = 4) && pending.testBit 4) := by
    funext i
    exact start_mask_testBit pending i
  rw [hf]
  by_cases hb : pending.testBit 4 = true
  · rw [hb, if_pos rfl]
    decide
  · have hb' : pending.testBit 4 = false := by simpa using hb
    rw [hb', if_neg (by simp)]
    simp

theorem loop_paused (c : Config) (e : Env) (s : State) (pending : Nat)
    (hp : s.fs_stop = true) :
    sdlog_thread_loop c e s pending =
      (if pending.testBit 4 = true then
        ({ s with fs_stop := false }, pending ^^^ (1 <<< 4), [])
       else (s, pending, [])) := by
  unfold sdlog_thread_loop
  simp only [hp, Bool.not_true, Bool.false_eq_true, if_false]
  rw [lowest_flag_start_mask]
  split_ifs with hb
  · simp [sdc_log_data, sdc_log_data_at]
  · rfl

/-! ## Contents of the record handed to the write step -/

theorem memcpy_take (dst src : List Nat) (n : Nat) :
    (memcpy dst src n).take n = (List.range n).map (fun i => src.getD i 0) := by
  unfold memcpy
  rw [List.take_append_of_le_length (by simp)]
  simp [List.take_of_length_le]

theorem range_map_getD (src : List Nat) :
    (List.range src.length).map (fun i => src.getD i 0) = src := by
  apply List.ext_getElem
  · simp
  · intro i h1 h2
    simp [List.getD_eq_getElem?_getD, List.getElem?_eq_getElem h2]

theorem switch_record (a b : Int) (c : Config) (e : Env) (s : State) (id : Nat)
    (h : (sdc_switch a b c e s id).2.2 = true) :
    (id = MPU9150 ∧
      (sdc_switch a b c e s id).1.datafile_state.log_data.mh.ID = strncpy c.mpuid c.sizeof_ID ∧
      (sdc_switch a b c e s id).1.datafile_state.log_data.mh.data_length
        = c.sizeof_MPU9150_read_data ∧
      (sdc_switch a b c e s id).1.datafile_state.log_data.data
        = memcpy s.datafile_state.log_data.data e.mpu9150_current_read
            c.sizeof_MPU9150_read_data) ∨
    (id = MPL3115A2 ∧
      (sdc_switch a b c e s id).1.datafile_state.log_data.mh.ID = strncpy c.mplid c.sizeof_ID ∧
      (sdc_switch a b c e s id).1.datafile_state.log_data.mh.data_length
        = c.sizeof_MPL3115A2_read_data ∧
      (sdc_switch a b c e s id).1.datafile_state.log_data.data
        = memcpy s.datafile_state.log_data.data e.mpl3115a2_current_read
            c.sizeof_MPL3115A2_read_data) := by
  unfold sdc_switch at h ⊢
  dsimp only at h ⊢
  split_ifs at h ⊢ <;> simp_all

theorem block_record (a b : Int) (c : Config) (e : Env) (s : State) (id : Nat)
    (off : Nat) (d : GENERIC_message) (r : SDC_ERRORCode)
    (h : Op.sdc_write_log_message off d r ∈ (sdc_log_block a b c e s id).2) :
    (sdc_switch a b c e (sdc_stamp_record e s) id).2.2 = true ∧
    d = (sdc_switch a b c e (sdc_stamp_record e s) id).1.datafile_state.log_data := by
  unfold sdc_log_block at h
  dsimp only at h
  split_ifs at h with h1 h2 h3
  · simp [write_record_ops, switch_ops] at h
    split_ifs at h <;> simp at h
    all_goals exact ⟨h2, h.2.1⟩
  · simp [switch_ops] at h
    split_ifs at h <;> simp at h
  · simp at h
  · simp at h

theorem step_record (a b : Int) (c : Config) (e : Env) (s : State) (id : Nat)
    (off : Nat) (d : GENERIC_message) (r : SDC_ERRORCode)
    (h : Op.sdc_write_log_message off d r ∈ (sdc_log_data_at a b c e s id).2) :
    (sdc_switch a b c e (sdc_stamp_record e (sdc_open_file e s).1) id).2.2 = true ∧
    d = (sdc_switch a b c e
          (sdc_stamp_record e (sdc_open_file e s).1) id).1.datafile_state.log_data := by
  unfold sdc_log_data_at at h
  dsimp only at h
  split_ifs at h with h0
  · simp at h
  · rcases List.mem_append.mp h with h1 | h1
    · have := open_no_write e s _ h1
      simp [Op.is_write, Op.is_record_write] at this
    · exact block_record a b c e _ id off d r h1

theorem setup_passed_sizes (c : Config) (s : State)
    (h0 : 0 < c.sizeof_data) (h1 : c.sizeof_data < 2 ^ 32)
    (hp : (sdlog_thread_setup c s).2.2 = none) :
    c.sizeof_MPU9150_read_data ≤ c.sizeof_data - 1 ∧
    c.sizeof_MPL3115A2_read_data ≤ c.sizeof_data - 1 ∧
    c.sizeof_ADIS16405_burst_data ≤ c.sizeof_data - 1 := by
  have hw : wrap_uint32 (c.sizeof_data + 2 ^ 32 - 1) = c.sizeof_data - 1 := by
    unfold wrap_uint32
    have : c.sizeof_data + 2 ^ 32 - 1 = (c.sizeof_data - 1) + 2 ^ 32 := by omega
    rw [this, Nat.add_mod_right]
    exact Nat.mod_eq_of_lt (by omega)
  unfold sdlog_thread_setup at hp
  dsimp only at hp
  rw [hw] at hp
  split_ifs at hp with ha hc
  omega

theorem block_checksum (a b : Int) (c : Config) (e : Env) (s : State) (id : Nat)
    (off : Nat) (crc : Nat) (r : SDC_ERRORCode)
    (h : Op.sdc_write_checksum off crc r ∈ (sdc_log_block a b c e s id).2) :
    crc = c.crc_finalize (c.crc_update c.crc_init (GENERIC_message_image c
      (sdc_switch a b c e (sdc_stamp_record e s) id).1.datafile_state.log_data)) := by
  unfold sdc_log_block at h
  dsimp only at h
  split_ifs at h with h1 h2 h3
  · simp [write_record_ops, switch_ops] at h
    split_ifs at h <;> simp at h
    all_goals exact h.2.1
  · simp [switch_ops] at h
    split_ifs at h <;> simp at h
  · simp at h
  · simp at h

theorem step_checksum (a b : Int) (c : Config) (e : Env) (s : State) (id : Nat)
    (off : Nat) (crc : Nat) (r : SDC_ERRORCode)
    (h : Op.sdc_write_checksum off crc r ∈ (sdc_log_data_at a b c e s id).2) :
    crc = c.crc_finalize (c.crc_update c.crc_init (GENERIC_message_image c
      (sdc_switch a b c e
        (sdc_stamp_record e (sdc_open_file e s).1) id).1.datafile_state.log_data)) := by
  unfold sdc_log_data_at at h
  dsimp only at h
  split_ifs at h with h0
  · simp at h
  · rcases List.mem_append.mp h with h1 | h1
    · have := open_no_write e s _ h1
      simp [Op.is_write, Op.is_checksum_write] at this
    · exact block_checksum a b c e _ id off crc r h1

/-! ## Sequence numbers along a run -/

theorem written_indices_append (xs ys : List Op) :
    written_indices (xs ++ ys) = written_indices xs ++ written_indices ys := by
  induction xs with
  | nil => rfl
  | cons x rest ih => cases x <;> simp [written_indices, ih]

theorem written_indices_no_write (xs : List Op) (h : ∀ o ∈ xs, o.is_write = false) :
    written_indices xs = [] := by
  induction xs with
  | nil => rfl
  | cons x rest ih =>
    have hx := h x (List.mem_cons_self _ _)
    have hr := ih (fun o ho => h o (List.mem_cons_of_mem _ ho))
    cases x <;> simp_all [written_indices, Op.is_write, Op.is_record_write]

theorem block_written_indices (a b : Int) (c : Config) (e : Env) (s : State) (id : Nat) :
    written_indices (sdc_log_block a b c e s id).2 =
      (if write_decision (sdc_log_block a b c e s id).2 = true
       then [s.datafile_state.log_sequence] else []) := by
  rw [block_decision]
  by_cases hg : (e.fs_ready_log && s.datafile_state.sd_log_opened) = true
  · by_cases hD : (id = MPU9150 ∧ a < s.mpu_count) ∨ (id = MPL3115A2 ∧ b < s.mpl_count)
    · have hw : (sdc_switch a b c e (sdc_stamp_record e s) id).2.2 = true := by
        rw [switch_write_log]
        simpa [stamp_frame] using hD
      have hid : id ≠ SENSOR_LOG_HALT := by
        rcases hD with h | h <;> simp [h.1]
      have hops : (sdc_switch a b c e (sdc_stamp_record e s) id).2.1 = [] := by
        rw [switch_ops]; simp [hid]
      simp [sdc_log_block, hg, hD, hw, hops, write_record_ops, written_indices,
        switch_frame, stamp_frame]
    · have hw : (sdc_switch a b c e (sdc_stamp_record e s) id).2.2 = false := by
        rw [switch_write_log]
        simpa [stamp_frame] using hD
      have hops := switch_ops a b c e (sdc_stamp_record e s) id
      simp only [sdc_log_block, hg, if_true, hw, hops, hD, decide_False, Bool.and_false,
        Bool.false_eq_true, if_false, List.append_nil]
      split_ifs <;> simp [written_indices]
  · simp only [sdc_log_block, hg, if_false, Bool.false_and, Bool.false_eq_true]
    split_ifs <;> simp [written_indices]

theorem step_written_indices (a b : Int) (c : Config) (e : Env) (s : State) (id : Nat) :
    written_indices (sdc_log_data_at a b c e s id).2 =
      (if write_decision (sdc_log_data_at a b c e s id).2 = true
       then [s.datafile_state.log_sequence] else []) := by
  by_cases h : id = SENSOR_LOG_START
  · simp [sdc_log_data_at, h, written_indices, write_decision]
  · have ho := written_indices_no_write _ (open_no_write e s)
    have hd : write_decision ((sdc_open_file e s).2
          ++ (sdc_log_block a b c e (sdc_open_file e s).1 id).2)
        = write_decision (sdc_log_block a b c e (sdc_open_file e s).1 id).2 := by
      simp only [write_decision, List.any_append]
      have : (sdc_open_file e s).2.any Op.is_record_write = false := by
        rw [List.any_eq_false]
        intro o hmem
        have := open_no_write e s o hmem
        simp [Op.is_write] at this
        simp [this.1]
      rw [this, Bool.false_or]
    simp only [sdc_log_data_at, h, if_false, written_indices_append, ho, List.nil_append, hd,
      block_written_indices, open_frame]

theorem step_decision_entered (a b : Int) (c : Config) (e : Env) (s : State) (id : Nat)
    (h : write_decision (sdc_log_data_at a b c e s id).2 = true) :
    entered_log_block (sdc_log_data_at a b c e s id).2 = true := by
  simp only [write_decision, List.any_eq_true] at h
  obtain ⟨o, ho, hw⟩ := h
  have := step_write_guard a b c e s id o ho (by simp [Op.is_write, hw])
  rw [step_entered]
  simpa [logs] using this

theorem run_indices_increase (a b : Int) (c : Config) :
    ∀ (ns : List (Env × Nat)) (s : State),
      s.datafile_state.log_sequence + ns.length ≤ 2 ^ 32 →
      List.Pairwise (fun x y => x < y) (written_indices (run_at a b c s ns).2.flatten) ∧
      ∀ x ∈ written_indices (run_at a b c s ns).2.flatten,
        s.datafile_state.log_sequence ≤ x := by
  intro ns
  induction ns with
  | nil => intro s _; simp [run_at, written_indices]
  | cons n rest ih =>
    intro s hs
    simp only [run_at, List.flatten_cons, written_indices_append, List.length_cons] at hs ⊢
    have hseq := step_seq a b c n.1 s n.2
    have hidx := step_written_indices a b c n.1 s n.2
    by_cases hrest : rest = []
    · subst hrest
      simp only [run_at, List.flatten_nil, written_indices, List.append_nil, hidx]
      split_ifs <;> simp
    · have hpos : 0 < rest.length := List.length_pos.mpr hrest
      have hnext : (sdc_log_data_at a b c n.1 s n.2).1.datafile_state.log_sequence
            + rest.length ≤ 2 ^ 32 ∧
          s.datafile_state.log_sequence
            ≤ (sdc_log_data_at a b c n.1 s n.2).1.datafile_state.log_sequence := by
        rw [hseq]
        split_ifs
        · rw [wrap_uint32_succ_small _ (by omega)]
          omega
        · omega
      obtain ⟨ih1, ih2⟩ := ih (sdc_log_data_at a b c n.1 s n.2).1 hnext.1
      by_cases hd : write_decision (sdc_log_data_at a b c n.1 s n.2).2 = true
      · have hent := step_decision_entered a b c n.1 s n.2 hd
        rw [hent, if_pos rfl, wrap_uint32_succ_small _ (by omega)] at hseq
        rw [hidx, if_pos hd]
        constructor
        · simp only [List.singleton_append, List.pairwise_cons]
          refine ⟨fun x hx => ?_, ih1⟩
          have := ih2 x hx
          omega
        · intro x hx
          simp only [List.singleton_append, List.mem_cons] at hx
          rcases hx with hx | hx
          · omega
          · have := ih2 x hx
            omega
      · rw [hidx, if_neg hd]
        simp only [List.nil_append]
        refine ⟨ih1, fun x hx => ?_⟩
        have := ih2 x hx
        omega

theorem run_at_getElem (a b : Int) (c : Config) :
    ∀ (ns : List (Env × Nat)) (s : State) (i : Nat) (ops : List Op),
      (run_at a b c s ns).2[i]? = some ops →
      ∃ n, ns[i]? = some n ∧
        ops = (sdc_log_data_at a b c n.1 (run_at a b c s (ns.take i)).1 n.2).2 := by
  intro ns
  induction ns with
  | nil => intro s i ops h; simp [run_at] at h
  | cons n rest ih =>
    intro s i ops h
    cases i with
    | zero =>
      simp only [run_at, List.getElem?_cons_zero, Option.some.injEq] at h
      exact ⟨n, by simp, by simp [run_at, h]⟩
    | succ j =>
      simp only [run_at, List.getElem?_cons_succ] at h
      obtain ⟨m, hm, hops⟩ := ih _ j ops h
      exact ⟨m, by simpa using hm, by simpa [run_at] using hops⟩

/-! ## Independence of the downsample counters -/

/-- One data notification handled with the store open and the medium ready. -/
theorem step_data_open (a b : Int) (c : Config) (e : Env) (s : State) (id : Nat)
    (ho : s.datafile_state.sd_log_opened = true) (hr : e.fs_ready_log = true)
    (hid : id = MPU9150 ∨ id = MPL3115A2 ∨ id = ADIS16405) :
    (sdc_log_data_at a b c e s id).1.datafile_state.sd_log_opened = true ∧
    (sdc_log_data_at a b c e s id).1.mpu_count
      = (if id = MPU9150 then (if a < s.mpu_count then 0 else wrap_int32 (s.mpu_count + 1))
         else s.mpu_count) ∧
    (sdc_log_data_at a b c e s id).1.mpl_count
      = (if id = MPL3115A2 then (if b < s.mpl_count then 0 else wrap_int32 (s.mpl_count + 1))
         else s.mpl_count) ∧
    write_decision (sdc_log_data_at a b c e s id).2
      = decide ((id = MPU9150 ∧ a < s.mpu_count) ∨ (id = MPL3115A2 ∧ b < s.mpl_count)) := by
  have h4 : id ≠ SENSOR_LOG_START := by rcases hid with h | h | h <;> simp [h]
  have h3 : id ≠ SENSOR_LOG_HALT := by rcases hid with h | h | h <;> simp [h]
  simp [sdc_log_data_at, h4, h3, open_noop e s ho, block_opened, block_counts,
    block_decision, ho, hr]

theorem mpu_decisions_of_count (a b : Int) (c : Config) :
    ∀ (ns : List (Env × Nat)) (s : State),
      s.datafile_state.sd_log_opened = true → (∀ n ∈ ns, data_ready n) →
      stream_decisions MPU9150 ns (run_at a b c s ns).2
        = downsample_decisions a s.mpu_count
            (ns.countP (fun n => decide (n.2 = MPU9150))) := by
  intro ns
  induction ns with
  | nil => intro s _ _; simp [run_at, stream_decisions, downsample_decisions]
  | cons n rest ih =>
    intro s ho hns
    obtain ⟨hid, hr⟩ := hns n (List.mem_cons_self _ _)
    obtain ⟨h1, h2, _, h4⟩ := step_data_open a b c n.1 s n.2 ho hr hid
    have hrec := ih (sdc_log_data_at a b c n.1 s n.2).1 h1
      (fun x hx => hns x (List.mem_cons_of_mem _ hx))
    by_cases hA : n.2 = MPU9150
    · have hne : ¬ (n.2 = MPL3115A2) := by rw [hA]; decide
      simp only [run_at, stream_decisions, hA, if_true, List.countP_cons, decide_True,
        downsample_decisions]
      rw [hA] at hrec h2 h4
      rw [hrec, h2, h4]
      simp
    · simp only [run_at, stream_decisions, hA, if_false, List.countP_cons, decide_False,
        Bool.false_eq_true, Nat.add_zero]
      rw [hrec, h2, if_neg hA]

theorem mpl_decisions_of_count (a b : Int) (c : Config) :
    ∀ (ns : List (Env × Nat)) (s : State),
      s.datafile_state.sd_log_opened = true → (∀ n ∈ ns, data_ready n) →
      stream_decisions MPL3115A2 ns (run_at a b c s ns).2
        = downsample_decisions b s.mpl_count
            (ns.countP (fun n => decide (n.2 = MPL3115A2))) := by
  intro ns
  induction ns with
  | nil => intro s _ _; simp [run_at, stream_decisions, downsample_decisions]
  | cons n rest ih =>
    intro s ho hns
    obtain ⟨hid, hr⟩ := hns n (List.mem_cons_self _ _)
    obtain ⟨h1, _, h3, h4⟩ := step_data_open a b c n.1 s n.2 ho hr hid
    have hrec := ih (sdc_log_data_at a b c n.1 s n.2).1 h1
      (fun x hx => hns x (List.mem_cons_of_mem _ hx))
    by_cases hB : n.2 = MPL3115A2
    · have hne : ¬ (n.2 = MPU9150) := by rw [hB]; decide
      simp only [run_at, stream_decisions, hB, if_true, List.countP_cons, decide_True,
        downsample_decisions]
      rw [hB] at hrec h3 h4
      rw [hrec, h3, h4]
      simp
    · simp only [run_at, stream_decisions, hB, if_false, List.countP_cons, decide_False,
        Bool.false_eq_true, Nat.add_zero]
      rw [hrec, h3, if_neg hB]

/-! ## Resuming after a failed opening -/

theorem step_decision (a b : Int) (c : Config) (e : Env) (s : State) (id : Nat) :
    write_decision (sdc_log_data_at a b c e s id).2 =
      (logs e s id &&
        decide ((id = MPU9150 ∧ a < s.mpu_count) ∨ (id = MPL3115A2 ∧ b < s.mpl_count))) := by
  by_cases h : id = SENSOR_LOG_START
  · simp [sdc_log_data_at, h, write_decision, logs]
  · have hopen : (sdc_open_file e s).2.any Op.is_record_write = false := by
      rw [List.any_eq_false]
      intro o hmem
      have := open_no_write e s o hmem
      simp [Op.is_write] at this
      simp [this.1]
    have hb := block_decision a b c e (sdc_open_file e s).1 id
    simp only [write_decision] at hb
    simp only [sdc_log_data_at, h, if_false, write_decision, List.any_append, hopen,
      Bool.false_or, hb, logs, open_frame]
    simp [h, Bool.and_assoc]

theorem open_succeeds (e : Env) (s : State)
    (hr : e.fs_ready_open = true) (hc : s.datafile_state.sd_log_opened = false)
    (h : e.f_open_existing_1 = 0 ∨ e.f_open_existing_2 = 0 ∨
         e.f_open_create_1 = 0 ∨ e.f_open_create_2 = 0) :
    (sdc_open_file e s).1.datafile_state.sd_log_opened = true := by
  by_cases h1 : e.f_open_existing_1 = 0 <;>
  by_cases h2 : e.f_open_existing_2 = 0 <;>
  by_cases h3 : e.f_open_create_1 = 0 <;>
  by_cases h4 : e.f_open_create_2 = 0 <;>
  simp_all [sdc_open_file, f_open_existing_retry, f_open_create_retry]

theorem run_at_getElem_some (a b : Int) (c : Config) :
    ∀ (ns : List (Env × Nat)) (s : State) (i : Nat) (n : Env × Nat),
      ns[i]? = some n →
      (run_at a b c s ns).2[i]?
        = some (sdc_log_data_at a b c n.1 (run_at a b c s (ns.take i)).1 n.2).2 := by
  intro ns
  induction ns with
  | nil => intro s i n h; simp at h
  | cons m rest ih =>
    intro s i n h
    cases i with
    | zero =>
      simp only [List.getElem?_cons_zero, Option.some.injEq] at h
      subst h
      simp [run_at]
    | succ j =>
      simp only [List.getElem?_cons_succ] at h
      simpa [run_at] using ih (sdc_log_data_at a b c m.1 s m.2).1 j n h

set_option maxRecDepth 16384

/-! ## Sequence numbers -/

/-- C1, as stated, fails: the set-up of the thread passes its checks, and from thread
start a start-control and 64 stream-A notifications with every call succeeding append two
records, numbered 31 and 63, so the sequence numbers of successive appended records do not
increase by exactly 1. -/
theorem appended_sequence_numbers_have_gaps :
    (sdlog_thread_setup demo_config (static_state demo_config)).2.2 = none ∧
    appended_indices
        (run demo_config (thread_start demo_config) (start_then_mpu 64)).2.flatten = [31, 63] ∧
    increases_by_one
        (appended_indices
          (run demo_config (thread_start demo_config) (start_then_mpu 64)).2.flatten) = false := by
  decide

/-- C1, amended: in every run from thread start, the sequence number of each record handed
to the write step equals, modulo 2^32, the number of earlier notifications of the run that
entered the logging block (medium ready and store open), whether or not they wrote; from
one appended record to the next it grows by the number of such notifications in between. -/
theorem sequence_number_counts_logged_notifications (c : Config) (ns : List (Env × Nat))
    (i : Nat) (ops : List Op) (off : Nat) (d : GENERIC_message) (r : SDC_ERRORCode)
    (hi : (run c (thread_start c) ns).2[i]? = some ops)
    (hw : Op.sdc_write_log_message off d r ∈ ops) :
    d.mh.index
      = List.countP entered_log_block ((run c (thread_start c) ns).2.take i) % 2 ^ 32 := by
  have h := run_index mpu_downsample mpl_downsample c ns (thread_start c) i ops off d r
    (by rw [thread_start_seq]; norm_num) hi hw
  rw [thread_start_seq, Nat.zero_add] at h
  exact h

/-- Witness for C1 amended: the record written by the 32nd stream-A notification after a
start-control carries sequence number 31. -/
theorem sequence_number_counts_logged_notifications_witness :
    (31 : Nat) = List.countP entered_log_block
      ((run demo_config (thread_start demo_config) (start_then_mpu 32)).2.take 32) % 2 ^ 32 :=
  sequence_number_counts_logged_notifications demo_config (start_then_mpu 32) 32
    [Op.psas_rtc_get_unix_time 0,
     Op.sdc_write_log_message 0
       { mh := { index := 31, ID := [77, 80, 85, 57], ts := 0, data_length := 6 },
         logtime := { tv_time := 0, tv_msec := 0 },
         data := [1, 2, 3, 4, 5, 6, 0, 0] } SDC_OK,
     Op.sdc_write_checksum 22 357 SDC_OK]
    0
    { mh := { index := 31, ID := [77, 80, 85, 57], ts := 0, data_length := 6 },
      logtime := { tv_time := 0, tv_msec := 0 },
      data := [1, 2, 3, 4, 5, 6, 0, 0] }
    SDC_OK rfl (by decide)

/-! ## Downsampling -/

/-- C2, as stated, fails for the threshold `N = 2^31 - 1`, the largest `int32_t` value:
the 32-bit counter never exceeds it, so 2^31 + 1 consecutive stream-A notifications on the
open store take no write decision at all, where the claim has one at notification
`N + 2 = 2^31 + 1`, that is `(2^31 + 1) / (N + 2) = 1` append. -/
theorem downsample_never_writes_at_int32_max :
    demo_open_state.mpu_count = 0 ∧
    demo_open_state.datafile_state.sd_log_opened = true ∧
    List.countP write_decision
      (run_at 2147483647 30 demo_config demo_open_state
        (List.replicate 2147483649 (env_ok, MPU9150))).2 = 0 ∧
    (List.replicate 2147483649 (env_ok, MPU9150)).length / (2147483647 + 2) = 1 := by
  refine ⟨rfl, rfl, ?_, ?_⟩
  · exact mpu_never_writes_at_int32_max 30 demo_config _ demo_open_state (by decide) rfl
      (fun n hn => by rw [List.eq_of_mem_replicate hn]; exact ⟨rfl, rfl⟩)
  · rw [List.length_replicate]

/-- C2, amended: for every threshold `N` with `N + 2 < 2^31` (the 32-bit counter can
reach `N + 2`), starting with the stream-A counter at 0 and the store open, consecutive stream-A notifications
handled with the medium ready take a write decision exactly at the notifications numbered
`N + 2`, `2 (N + 2)`, ... (notification `j + 1` writes iff `N + 2` divides `j + 1`), which
makes `k / (N + 2)` appends out of `k` notifications; the shipped threshold is 30, so the
shipped period is 32. -/
theorem downsample_write_period (N : Nat) (hN : N + 2 < 2 ^ 31) (b : Int) (c : Config)
    (s : State) (ns : List (Env × Nat))
    (hc : s.mpu_count = 0) (ho : s.datafile_state.sd_log_opened = true)
    (hns : ∀ n ∈ ns, n.2 = MPU9150 ∧ n.1.fs_ready_log = true) :
    (run_at (N : Int) b c s ns).2.map write_decision
        = (List.range ns.length).map (fun j => decide ((N + 2) ∣ (j + 1))) ∧
    List.countP write_decision (run_at (N : Int) b c s ns).2 = ns.length / (N + 2) ∧
    mpu_downsample = ((30 : Nat) : Int) := by
  have h := mpu_period_general N hN b c ns s 0 (by omega) (by simpa using hc) ho hns
  simp only [Nat.zero_add] at h
  exact ⟨h.1, h.2, rfl⟩

/-- Witness for C2: with threshold 8, forty stream-A notifications give exactly 4 write
decisions, at the 10th, 20th, 30th and 40th notification. -/
theorem downsample_write_period_witness :
    ((run_at ((8 : Nat) : Int) 30 demo_config demo_open_state
          (List.replicate 40 (env_ok, MPU9150))).2.map write_decision
        = (List.range 40).map (fun j => decide ((8 + 2) ∣ (j + 1))) ∧
      List.countP write_decision (run_at ((8 : Nat) : Int) 30 demo_config demo_open_state
          (List.replicate 40 (env_ok, MPU9150))).2 = 40 / (8 + 2) ∧
      mpu_downsample = ((30 : Nat) : Int)) ∧
    (List.range 40).filter (fun j => decide ((8 + 2) ∣ (j + 1))) = [9, 19, 29, 39] ∧
    40 / (8 + 2) = 4 :=
  ⟨downsample_write_period 8 (by norm_num) 30 demo_config demo_open_state
      (List.replicate 40 (env_ok, MPU9150)) rfl rfl
      (fun n hn => by rw [List.eq_of_mem_replicate hn]; exact ⟨rfl, rfl⟩),
    by decide, by decide⟩

/-! ## Failed writes and the opening procedure -/

/-- C3, as stated, fails: from thread start, when the record write of the first append
(the 32nd stream-A notification) fails, the invocation does not abandon the append: it
still issues the checksum write for that record, which succeeds, so a checksum trailer is
written for a record whose image was not. -/
theorem failed_record_write_is_followed_by_checksum_write :
    (sdc_log_data demo_config env_record_fail
        (run demo_config (thread_start demo_config) (start_then_mpu 31)).1 MPU9150).2
      = [Op.psas_rtc_get_unix_time 0,
         Op.sdc_write_log_message 0
           { mh := { index := 31, ID := [77, 80, 85, 57], ts := 0, data_length := 6 },
             logtime := { tv_time := 0, tv_msec := 0 },
             data := [1, 2, 3, 4, 5, 6, 0, 0] } (SDC_FAILURE 1),
         Op.sdc_write_checksum 0 357 SDC_OK] ∧
    (sdc_log_data demo_config env_record_fail
        (run demo_config (thread_start demo_config) (start_then_mpu 31)).1 MPU9150).2.any
      Op.is_checksum_write = true := by
  decide

/-- C3, amended: when the record write of an append fails (after the opening procedure of
the invocation the store is open, the medium is ready and a write decision is taken),
`write_errors` is incremented from the value it has after the opening procedure and the
store stays open; the append is not abandoned: the invocation issues, after the calls of
the opening procedure, the clock read, the record write and then still the checksum write
for that record, and if the checksum write fails too `write_errors` is incremented once
more. -/
theorem failed_record_write_counts_error_and_continues (c : Config) (e : Env) (s : State)
    (id : Nat)
    (ho : (sdc_open_file e s).1.datafile_state.sd_log_opened = true)
    (hr : e.fs_ready_log = true)
    (hd : (id = MPU9150 ∧ mpu_downsample < s.mpu_count) ∨
          (id = MPL3115A2 ∧ mpl_downsample < s.mpl_count))
    (hf : e.write_log_message ≠ SDC_OK) :
    (∃ d crc, (sdc_log_data c e s id).2 =
      (sdc_open_file e s).2 ++
      [Op.psas_rtc_get_unix_time e.rtc_rc,
       Op.sdc_write_log_message (sdc_open_file e s).1.sdc_fp_index d e.write_log_message,
       Op.sdc_write_checksum
         (wrap_uint32 ((sdc_open_file e s).1.sdc_fp_index + e.write_log_message_advance))
         crc e.write_checksum]) ∧
    (sdc_log_data c e s id).1.datafile_state.write_errors =
      (if e.write_checksum = SDC_OK then
        wrap_uint32 ((sdc_open_file e s).1.datafile_state.write_errors + 1)
       else
        wrap_uint32
          (wrap_uint32 ((sdc_open_file e s).1.datafile_state.write_errors + 1) + 1)) ∧
    (sdc_log_data c e s id).1.datafile_state.sd_log_opened = true := by
  have hid : id ≠ SENSOR_LOG_START ∧ id ≠ SENSOR_LOG_HALT := by
    rcases hd with h | h <;> simp [h.1]
  have hw : (sdc_switch mpu_downsample mpl_downsample c e
      (sdc_stamp_record e (sdc_open_file e s).1) id).2.2 = true := by
    rw [switch_write_log]
    simpa [stamp_frame, open_frame] using hd
  have hops : (sdc_switch mpu_downsample mpl_downsample c e
      (sdc_stamp_record e (sdc_open_file e s).1) id).2.1 = [] := by
    rw [switch_ops]; simp [hid.2]
  have hblock : sdc_log_data c e s id =
      ((sdc_write_record c e
          (sdc_switch mpu_downsample mpl_downsample c e
            (sdc_stamp_record e (sdc_open_file e s).1) id).1).1,
       (sdc_open_file e s).2 ++ Op.psas_rtc_get_unix_time e.rtc_rc ::
        (sdc_write_record c e
          (sdc_switch mpu_downsample mpl_downsample c e
            (sdc_stamp_record e (sdc_open_file e s).1) id).1).2) := by
    simp [sdc_log_data, sdc_log_data_at, hid.1, sdc_log_block, ho, hr, hw, hops]
  rw [hblock]
  refine ⟨⟨(sdc_switch mpu_downsample mpl_downsample c e
      (sdc_stamp_record e (sdc_open_file e s).1) id).1.datafile_state.log_data,
    c.crc_finalize (c.crc_update c.crc_init (GENERIC_message_image c
      (sdc_switch mpu_downsample mpl_downsample c e
        (sdc_stamp_record e (sdc_open_file e s).1) id).1.datafile_state.log_data)), ?_⟩, ?_, ?_⟩
  · simp only [write_record_ops, switch_frame, stamp_frame]
  · simp [write_record_errors, hf, switch_frame, stamp_frame]
  · simp [write_record_frame, switch_frame, stamp_frame, hid.2, ho]

/-- Witness for C3 amended: after a notification that found the medium not ready has
closed the store, the next stream-A notification reopens the file in place (which clears
`write_errors`) and its record write fails; `write_errors` is 1 afterwards. -/
theorem failed_record_write_counts_error_and_continues_witness :
    (sdc_log_data demo_config env_record_fail demo_closed_state
        MPU9150).1.datafile_state.write_errors =
      (if env_record_fail.write_checksum = SDC_OK then
        wrap_uint32 ((sdc_open_file env_record_fail
          demo_closed_state).1.datafile_state.write_errors + 1)
       else
        wrap_uint32 (wrap_uint32 ((sdc_open_file env_record_fail
          demo_closed_state).1.datafile_state.write_errors + 1) + 1)) :=
  (failed_record_write_counts_error_and_continues demo_config env_record_fail
    demo_closed_state MPU9150
    (by decide) (by decide) (Or.inl (by decide)) (by decide)).2.1

/-- C4: when the log file is opened in place (the first or the second in-place attempt
succeeds) and `sdc_seek_eod` does not return `SDC_OK`, the opening procedure calls
`sdc_reset_fp_index`, and after it the write cursor is 0, `write_errors` is 0 and the
store is open. -/
theorem reopen_without_marker_resets (e : Env) (s : State)
    (hr : e.fs_ready_open = true) (hc : s.datafile_state.sd_log_opened = false)
    (hopen : e.f_open_existing_1 = 0 ∨ e.f_open_existing_2 = 0)
    (hseek : e.seek_eod ≠ SDC_OK) :
    Op.sdc_reset_fp_index ∈ (sdc_open_file e s).2 ∧
    (sdc_open_file e s).1.sdc_fp_index = 0 ∧
    (sdc_open_file e s).1.datafile_state.write_errors = 0 ∧
    (sdc_open_file e s).1.datafile_state.sd_log_opened = true := by
  have h1 : (f_open_existing_retry e).1 = 0 := by
    unfold f_open_existing_retry
    split_ifs with h
    · rcases hopen with h' | h'
      · exact absurd h' h
      · exact h'
    · simpa using h
  simp [sdc_open_file, hr, hc, h1, sdc_resume_or_reset, sdc_seek_eod, hseek,
    sdc_reset_fp_index]

/-- Witness for C4: reopening from thread start when no EOD marker is found. -/
theorem reopen_without_marker_resets_witness :
    Op.sdc_reset_fp_index ∈
        (sdc_open_file { env_ok with seek_eod := SDC_FAILURE 2 } (thread_start demo_config)).2 ∧
    (sdc_open_file { env_ok with seek_eod := SDC_FAILURE 2 }
        (thread_start demo_config)).1.sdc_fp_index = 0 ∧
    (sdc_open_file { env_ok with seek_eod := SDC_FAILURE 2 }
        (thread_start demo_config)).1.datafile_state.write_errors = 0 ∧
    (sdc_open_file { env_ok with seek_eod := SDC_FAILURE 2 }
        (thread_start demo_config)).1.datafile_state.sd_log_opened = true :=
  reopen_without_marker_resets { env_ok with seek_eod := SDC_FAILURE 2 }
    (thread_start demo_config) rfl rfl (Or.inl rfl) (by decide)

/-! ## The error counter -/

/-- C5, as stated, fails: from thread start, after a failed record write (`write_errors`
is 1) and a notification with the medium not ready (the file is closed), the next
notification reopens the file in place and `write_errors` drops from 1 to 0. -/
theorem write_errors_cleared_by_reopen :
    (run demo_config (thread_start demo_config)
        (start_then_mpu 31 ++ [(env_record_fail, MPU9150), (env_not_ready, ADIS16405)])
      ).1.datafile_state.write_errors = 1 ∧
    (sdc_log_data demo_config env_ok
        (run demo_config (thread_start demo_config)
          (start_then_mpu 31 ++ [(env_record_fail, MPU9150), (env_not_ready, ADIS16405)])).1
        ADIS16405).1.datafile_state.write_errors = 0 := by
  decide

/-- C5, amended: `write_errors` is cleared to 0 by the opening procedure whenever it opens
the log file in place (and the value after that notification is at most 2); over every
notification that does not open the file in place the value after it is greater than or
equal to the value before it, as long as the 32-bit counter does not wrap. -/
theorem write_errors_monotone_unless_reopened (c : Config) (e : Env) (s : State) (id : Nat)
    (h : s.datafile_state.write_errors + 2 < 2 ^ 32) :
    (reopens_in_place e s id = false →
      s.datafile_state.write_errors ≤ (sdc_log_data c e s id).1.datafile_state.write_errors) ∧
    (reopens_in_place e s id = true →
      (sdc_open_file e s).1.datafile_state.write_errors = 0 ∧
      (sdc_log_data c e s id).1.datafile_state.write_errors ≤ 2) :=
  ⟨fun hn => step_errors_no_reopen mpu_downsample mpl_downsample c e s id hn h,
   fun hn => step_errors_reopen mpu_downsample mpl_downsample c e s id hn⟩

/-- Witness for C5 amended: a failing append with the store open raises the counter. -/
theorem write_errors_monotone_unless_reopened_witness :
    (run demo_config (thread_start demo_config) (start_then_mpu 31)
      ).1.datafile_state.write_errors
    ≤ (sdc_log_data demo_config env_record_fail
        (run demo_config (thread_start demo_config) (start_then_mpu 31)).1
        MPU9150).1.datafile_state.write_errors :=
  (write_errors_monotone_unless_reopened demo_config env_record_fail
    (run demo_config (thread_start demo_config) (start_then_mpu 31)).1 MPU9150
    (by decide)).1 (by decide)

/-! ## Halt-control -/

/-- C6: processing halt-control with the store open and the medium ready reads the clock
and then calls `f_close` once, and a second time (after a 5 ms sleep) only if the first
call fails; whatever the results, the store is then closed and `fs_stop` is set, and no
record or checksum write is issued. -/
theorem halt_when_open_closes (c : Config) (e : Env) (s : State)
    (ho : s.datafile_state.sd_log_opened = true) (hr : e.fs_ready_log = true) :
    (sdc_log_data c e s SENSOR_LOG_HALT).2 =
      Op.psas_rtc_get_unix_time e.rtc_rc ::
        (if e.f_close_1 ≠ 0 then
          [Op.f_close e.f_close_1, Op.chThdSleepMilliseconds 5, Op.f_close e.f_close_2]
         else [Op.f_close e.f_close_1]) ∧
    List.countP Op.is_close (sdc_log_data c e s SENSOR_LOG_HALT).2
      = (if e.f_close_1 = 0 then 1 else 2) ∧
    (sdc_log_data c e s SENSOR_LOG_HALT).1.datafile_state.sd_log_opened = false ∧
    (sdc_log_data c e s SENSOR_LOG_HALT).1.fs_stop = true ∧
    (∀ o ∈ (sdc_log_data c e s SENSOR_LOG_HALT).2, o.is_write = false) := by
  have hops : (sdc_log_data c e s SENSOR_LOG_HALT).2 =
      Op.psas_rtc_get_unix_time e.rtc_rc ::
        (if e.f_close_1 ≠ 0 then
          [Op.f_close e.f_close_1, Op.chThdSleepMilliseconds 5, Op.f_close e.f_close_2]
         else [Op.f_close e.f_close_1]) := by
    simp [sdc_log_data, sdc_log_data_at, open_noop e s ho, sdc_log_block, ho, hr,
      switch_write_log, switch_ops]
  have hl : logs e s SENSOR_LOG_HALT = true := by
    simp [logs, open_noop e s ho, ho, hr]
  refine ⟨hops, ?_, ?_, ?_, ?_⟩
  · rw [hops]
    by_cases h : e.f_close_1 = 0 <;> simp [h, Op.is_close]
  · simp [sdc_log_data, step_opened]
  · simp [sdc_log_data, step_fs_stop, hl]
  · rw [hops]
    by_cases h : e.f_close_1 = 0 <;>
      simp [h, Op.is_write, Op.is_record_write, Op.is_checksum_write]

/-- Witness for C6: halt-control on the open store whose first `f_close` fails. -/
theorem halt_when_open_closes_witness :
    List.countP Op.is_close
      (sdc_log_data demo_config { env_ok with f_close_1 := 1 } demo_open_state
        SENSOR_LOG_HALT).2
      = (if ({ env_ok with f_close_1 := 1 } : Env).f_close_1 = 0 then 1 else 2) :=
  (halt_when_open_closes demo_config { env_ok with f_close_1 := 1 } demo_open_state
    rfl rfl).2.1

/-- C7, as stated, fails: after thread start and a start-control (`fs_stop` false, store
closed), a halt-control processed while the medium is not ready leaves `fs_stop` false;
so does one processed while the medium is ready and all four open attempts fail. -/
theorem halt_when_closed_leaves_pause_flag :
    (sdc_log_data demo_config env_not_ready
        (run demo_config (thread_start demo_config) [(env_ok, SENSOR_LOG_START)]).1
        SENSOR_LOG_HALT).1.fs_stop = false ∧
    (sdc_log_data demo_config env_open_fail
        (run demo_config (thread_start demo_config) [(env_ok, SENSOR_LOG_START)]).1
        SENSOR_LOG_HALT).1.fs_stop = false := by
  decide

/-- C7, amended: for every state and every outcome of the file operations, processing a
halt-control notification leaves the store closed; it sets `fs_stop` when the logging
block is entered (after the opening procedure the medium is ready and the store is open)
and otherwise leaves `fs_stop` as it was. -/
theorem halt_closes_and_pauses_when_logging (c : Config) (e : Env) (s : State) :
    (sdc_log_data c e s SENSOR_LOG_HALT).1.datafile_state.sd_log_opened = false ∧
    (sdc_log_data c e s SENSOR_LOG_HALT).1.fs_stop =
      (if logs e s SENSOR_LOG_HALT = true then true else s.fs_stop) := by
  constructor
  · simp [sdc_log_data, step_opened]
  · simp [sdc_log_data, step_fs_stop]

/-! ## Pausing -/

/-- C8: while `fs_stop` is set (as it is at thread start), an iteration of the dispatch
loop of `sdlog_thread` waits for the start-control flag only: whatever stream flags are
pending, it issues no call at all (so no record or checksum write), leaves the Log Store
state, the downsample counters and the cursor unchanged and leaves every other flag
pending; if no start-control is pending the whole state is unchanged (still paused), and a
pending start-control only clears `fs_stop`. -/
theorem paused_loop_appends_nothing (c : Config) (e : Env) (s : State) (pending : Nat)
    (hp : s.fs_stop = true) :
    (sdlog_thread_loop c e s pending).2.2 = [] ∧
    (sdlog_thread_loop c e s pending).1.datafile_state = s.datafile_state ∧
    (sdlog_thread_loop c e s pending).1.mpu_count = s.mpu_count ∧
    (sdlog_thread_loop c e s pending).1.mpl_count = s.mpl_count ∧
    (sdlog_thread_loop c e s pending).1.sdc_fp_index = s.sdc_fp_index ∧
    (sdlog_thread_loop c e s pending).1.sdc_fp_index_old = s.sdc_fp_index_old ∧
    (sdlog_thread_loop c e s pending).1.fs_stop = !pending.testBit SENSOR_LOG_START ∧
    (pending.testBit SENSOR_LOG_START = false →
      (sdlog_thread_loop c e s pending).1 = s ∧
      (sdlog_thread_loop c e s pending).2.1 = pending) ∧
    (∀ eid, eid ≠ SENSOR_LOG_START →
      (sdlog_thread_loop c e s pending).2.1.testBit eid = pending.testBit eid) ∧
    (thread_start c).fs_stop = true := by
  rw [loop_paused c e s pending hp]
  have hstart : (thread_start c).fs_stop = true := by
    unfold thread_start sdlog_thread_setup
    dsimp only
    split_ifs <;> rfl
  by_cases hb : pending.testBit 4 = true
  · have hb4 : pending.testBit SENSOR_LOG_START = true := hb
    rw [if_pos hb]
    refine ⟨rfl, rfl, rfl, rfl, rfl, rfl, ?_, ?_, ?_, hstart⟩
    · rw [hb4]; rfl
    · intro h; rw [hb4] at h; exact absurd h (by simp)
    · intro eid hne
      have h16 : (1 <<< 4 : Nat) = 2 ^ 4 := by decide
      have hne' : ¬ 4 = eid := fun x => hne x.symm
      show (pending ^^^ 1 <<< 4).testBit eid = pending.testBit eid
      rw [h16, Nat.testBit_xor, Nat.testBit_two_pow]
      simp [hne']
  · have hb' : pending.testBit SENSOR_LOG_START = false := by simpa using hb
    rw [if_neg hb]
    refine ⟨rfl, rfl, rfl, rfl, rfl, rfl, ?_, fun _ => ⟨rfl, rfl⟩, fun _ _ => rfl, hstart⟩
    rw [hb']; exact hp

/-- Witness for C8: at thread start, with a stream-A and a stream-B notification pending,
an iteration of the loop issues no call. -/
theorem paused_loop_appends_nothing_witness :
    (sdlog_thread_loop demo_config env_ok (thread_start demo_config) 3).2.2 = [] :=
  (paused_loop_appends_nothing demo_config env_ok (thread_start demo_config) 3 rfl).1

/-! ## Failed opening and the write guard -/

/-- C9, as stated, fails: from thread start, after an opening procedure in which all four
open attempts have failed, the following notifications start a new opening procedure
(which succeeds) and a record is written. -/
theorem failed_opening_is_not_terminal :
    (run demo_config (thread_start demo_config)
        ([(env_ok, SENSOR_LOG_START), (env_open_fail, MPU9150)]
          ++ List.replicate 32 (env_ok, MPU9150))).2[1]?
      = some [Op.f_stat 0, Op.f_open OpenMode.existing 4, Op.chThdSleepMilliseconds 500,
              Op.f_open OpenMode.existing 4, Op.f_open OpenMode.create_always 1,
              Op.f_open OpenMode.create_always 1] ∧
    ((run demo_config (thread_start demo_config)
        ([(env_ok, SENSOR_LOG_START), (env_open_fail, MPU9150)]
          ++ List.replicate 32 (env_ok, MPU9150))).2.drop 2).flatten.any Op.is_open = true ∧
    ((run demo_config (thread_start demo_config)
        ([(env_ok, SENSOR_LOG_START), (env_open_fail, MPU9150)]
          ++ List.replicate 32 (env_ok, MPU9150))).2.drop 2).flatten.any Op.is_write = true := by
  decide

/-- C9, amended: when all four open attempts of an opening procedure fail, that invocation
makes exactly those attempts, issues no write and leaves the store closed.  The failure is
not terminal: at every later notification of the run other than start-control that finds
the medium ready while the store is still closed, a new opening procedure is started
(`f_stat`, then an in-place `f_open`); if one of its four attempts succeeds and the medium
is ready at the logging block, the logging block is entered in that same invocation and a
record is written exactly when the downsample rule of the notification's stream fires. -/
theorem failed_opening_is_retried (c : Config) (e : Env) (s : State) (id : Nat)
    (ns : List (Env × Nat)) (i : Nat) (n : Env × Nat)
    (hid : id ≠ SENSOR_LOG_START) (hr : e.fs_ready_open = true)
    (hc : s.datafile_state.sd_log_opened = false)
    (h1 : e.f_open_existing_1 ≠ 0) (h2 : e.f_open_existing_2 ≠ 0)
    (h3 : e.f_open_create_1 ≠ 0) (h4 : e.f_open_create_2 ≠ 0)
    (hn : ns[i]? = some n)
    (hid2 : n.2 ≠ SENSOR_LOG_START) (hr2 : n.1.fs_ready_open = true)
    (hcl : (run c (sdc_log_data c e s id).1 (ns.take i)).1.datafile_state.sd_log_opened
      = false) :
    (sdc_log_data c e s id).2 =
      [Op.f_stat e.f_stat, Op.f_open OpenMode.existing e.f_open_existing_1,
       Op.chThdSleepMilliseconds 500, Op.f_open OpenMode.existing e.f_open_existing_2,
       Op.f_open OpenMode.create_always e.f_open_create_1,
       Op.f_open OpenMode.create_always e.f_open_create_2] ∧
    (sdc_log_data c e s id).2.any Op.is_write = false ∧
    (sdc_log_data c e s id).1.datafile_state.sd_log_opened = false ∧
    (∃ ops rest,
      (run c (sdc_log_data c e s id).1 ns).2[i]? = some ops ∧
      ops = Op.f_stat n.1.f_stat :: Op.f_open OpenMode.existing n.1.f_open_existing_1 :: rest ∧
      ((n.1.f_open_existing_1 = 0 ∨ n.1.f_open_existing_2 = 0 ∨
          n.1.f_open_create_1 = 0 ∨ n.1.f_open_create_2 = 0) →
        n.1.fs_ready_log = true →
        entered_log_block ops = true ∧
        write_decision ops = decide
          ((n.2 = MPU9150 ∧ mpu_downsample
              < (run c (sdc_log_data c e s id).1 (ns.take i)).1.mpu_count) ∨
           (n.2 = MPL3115A2 ∧ mpl_downsample
              < (run c (sdc_log_data c e s id).1 (ns.take i)).1.mpl_count)))) := by
  have hfirst : sdc_log_data c e s id =
      ({ s with datafile_state := { s.datafile_state with sd_log_opened := false } },
       [Op.f_stat e.f_stat, Op.f_open OpenMode.existing e.f_open_existing_1,
        Op.chThdSleepMilliseconds 500, Op.f_open OpenMode.existing e.f_open_existing_2,
        Op.f_open OpenMode.create_always e.f_open_create_1,
        Op.f_open OpenMode.create_always e.f_open_create_2]) := by
    simp [sdc_log_data, sdc_log_data_at, hid, open_all_fail e s hr hc h1 h2 h3 h4,
      sdc_log_block]
  refine ⟨by rw [hfirst], ?_, by rw [hfirst], ?_⟩
  · rw [hfirst]
    simp [Op.is_write, Op.is_record_write, Op.is_checksum_write]
  · obtain ⟨rest, hrest⟩ := open_attempted n.1
      (run c (sdc_log_data c e s id).1 (ns.take i)).1 hr2 hcl
    refine ⟨_, rest ++ (sdc_log_block mpu_downsample mpl_downsample c n.1
      (sdc_open_file n.1 (run c (sdc_log_data c e s id).1 (ns.take i)).1).1 n.2).2,
      run_at_getElem_some mpu_downsample mpl_downsample c ns _ i n hn, ?_, ?_⟩
    · show (sdc_log_data_at mpu_downsample mpl_downsample c n.1
        (run c (sdc_log_data c e s id).1 (ns.take i)).1 n.2).2 = _
      simp [sdc_log_data_at, hid2, hrest]
    · intro hsome hlog
      have hopen := open_succeeds n.1 (run c (sdc_log_data c e s id).1 (ns.take i)).1
        hr2 hcl hsome
      have hl : logs n.1 (run c (sdc_log_data c e s id).1 (ns.take i)).1 n.2 = true := by
        simp [logs, hid2, hlog, hopen]
      constructor
      · show entered_log_block (sdc_log_data_at mpu_downsample mpl_downsample c n.1
          (run c (sdc_log_data c e s id).1 (ns.take i)).1 n.2).2 = true
        rw [step_entered]
        simpa [logs] using hl
      · show write_decision (sdc_log_data_at mpu_downsample mpl_downsample c n.1
          (run c (sdc_log_data c e s id).1 (ns.take i)).1 n.2).2 = _
        rw [step_decision, hl, Bool.true_and]

/-- Witness for C9 amended: a failed opening from thread start followed by a stream-A
notification for which every call succeeds. -/
theorem failed_opening_is_retried_witness :
    (sdc_log_data demo_config env_open_fail (thread_start demo_config)
      MPU9150).1.datafile_state.sd_log_opened = false :=
  (failed_opening_is_retried demo_config env_open_fail (thread_start demo_config) MPU9150
    [(env_ok, MPU9150)] 0 (env_ok, MPU9150)
    (by decide) rfl rfl (by decide) (by decide) (by decide) (by decide)
    rfl (by decide) rfl (by decide)).2.2.1

/-- C10: `sdc_log_data` issues a record write or a checksum write only when it enters the
logging block, that is when the notification is not a start-control and, after the opening
procedure of the same invocation, the medium is ready and the store is open; so no write
is issued when the medium is not ready, nor when the store is closed and is not opened
(the medium is not ready at the first guard, or all four open attempts fail). -/
theorem writes_only_when_open (c : Config) (e : Env) (s : State) (id : Nat) :
    (∀ o ∈ (sdc_log_data c e s id).2, o.is_write = true →
      id ≠ SENSOR_LOG_START ∧ e.fs_ready_log = true ∧
      (sdc_open_file e s).1.datafile_state.sd_log_opened = true) ∧
    (e.fs_ready_log = false → ∀ o ∈ (sdc_log_data c e s id).2, o.is_write = false) ∧
    (s.datafile_state.sd_log_opened = false →
      (e.fs_ready_open = false ∨
        (e.f_open_existing_1 ≠ 0 ∧ e.f_open_existing_2 ≠ 0 ∧
         e.f_open_create_1 ≠ 0 ∧ e.f_open_create_2 ≠ 0)) →
      ∀ o ∈ (sdc_log_data c e s id).2, o.is_write = false) := by
  have key : ∀ o ∈ (sdc_log_data c e s id).2, o.is_write = true →
      id ≠ SENSOR_LOG_START ∧ e.fs_ready_log = true ∧
      (sdc_open_file e s).1.datafile_state.sd_log_opened = true := by
    intro o ho hw
    have := step_write_guard mpu_downsample mpl_downsample c e s id o ho hw
    simpa [logs, and_assoc] using this
  refine ⟨key, ?_, ?_⟩
  · intro hr o ho
    by_contra hw
    have := key o ho (by simpa using hw)
    rw [hr] at this
    exact absurd this.2.1 (by simp)
  · intro hc hfail o ho
    by_contra hw
    have hopen := (key o ho (by simpa using hw)).2.2
    rcases hfail with hf | ⟨h1, h2, h3, h4⟩
    · simp [sdc_open_file, hf, hc] at hopen
    · by_cases hf' : e.fs_ready_open = true
      · rw [open_all_fail e s hf' hc h1 h2 h3 h4] at hopen
        simp at hopen
      · simp [sdc_open_file, hf', hc] at hopen

/-- Witness for C10: the checksum write of the first append of a run from thread start is
issued with the medium ready and the store open. -/
theorem writes_only_when_open_witness :
    MPU9150 ≠ SENSOR_LOG_START ∧ env_ok.fs_ready_log = true ∧
    (sdc_open_file env_ok
      (run demo_config (thread_start demo_config) (start_then_mpu 31)).1
      ).1.datafile_state.sd_log_opened = true :=
  (writes_only_when_open demo_config env_ok
    (run demo_config (thread_start demo_config) (start_then_mpu 31)).1 MPU9150).1
    (Op.sdc_write_checksum 22 357 SDC_OK) (by decide) rfl

/-! ## Order of the open attempts -/

/-- C11: the opening procedure (medium ready, store closed) makes its open attempts in the
order in-place, in-place, create, create and stops at the first success: at most 4
attempts, every attempt before the last one failed, a truncating create is attempted only
after both in-place attempts have failed, and the store is open afterwards if and only if
one of the attempts succeeded. -/
theorem opening_procedure_order (e : Env) (s : State)
    (hr : e.fs_ready_open = true) (hc : s.datafile_state.sd_log_opened = false) :
    open_attempts (sdc_open_file e s).2 =
      (if e.f_open_existing_1 = 0 then [(OpenMode.existing, e.f_open_existing_1)]
       else if e.f_open_existing_2 = 0 then
        [(OpenMode.existing, e.f_open_existing_1), (OpenMode.existing, e.f_open_existing_2)]
       else if e.f_open_create_1 = 0 then
        [(OpenMode.existing, e.f_open_existing_1), (OpenMode.existing, e.f_open_existing_2),
         (OpenMode.create_always, e.f_open_create_1)]
       else
        [(OpenMode.existing, e.f_open_existing_1), (OpenMode.existing, e.f_open_existing_2),
         (OpenMode.create_always, e.f_open_create_1),
         (OpenMode.create_always, e.f_open_create_2)]) ∧
    (open_attempts (sdc_open_file e s).2).length ≤ 4 ∧
    (∀ r, (OpenMode.create_always, r) ∈ open_attempts (sdc_open_file e s).2 →
      e.f_open_existing_1 ≠ 0 ∧ e.f_open_existing_2 ≠ 0) ∧
    (∀ a ∈ (open_attempts (sdc_open_file e s).2).dropLast, a.2 ≠ 0) ∧
    ((sdc_open_file e s).1.datafile_state.sd_log_opened = true ↔
      ∃ a ∈ open_attempts (sdc_open_file e s).2, a.2 = 0) := by
  by_cases h1 : e.f_open_existing_1 = 0 <;>
  by_cases h2 : e.f_open_existing_2 = 0 <;>
  by_cases h3 : e.f_open_create_1 = 0 <;>
  by_cases h4 : e.f_open_create_2 = 0 <;>
  by_cases h5 : e.seek_eod = SDC_OK <;>
  simp [sdc_open_file, f_open_existing_retry, f_open_create_retry, sdc_resume_or_reset,
    sdc_seek_eod, sdc_reset_fp_index, open_attempts, hr, hc, h1, h2, h3, h4, h5]

/-- Witness for C11: from thread start, with both in-place attempts failing and the first
create succeeding, the attempts are in-place, in-place, create, and the store is open. -/
theorem opening_procedure_order_witness :
    (open_attempts (sdc_open_file { env_open_fail with f_open_create_1 := 0 }
      (thread_start demo_config)).2).length ≤ 4 :=
  (opening_procedure_order { env_open_fail with f_open_create_1 := 0 }
    (thread_start demo_config) rfl rfl).2.1

/-! ## Start-up checks -/

/-- C12, as stated, fails: with a stream-A sample of exactly the size of the payload field
(8 bytes, so every variant is at most `MAX_PAYLOAD`) and an aligned record, the set-up
does not pass the payload-size check: it returns `SDC_ASSERT_ERROR`. -/
theorem payload_of_full_size_is_rejected :
    ({ demo_config with sizeof_MPU9150_read_data := 8 } : Config).sizeof_MPU9150_read_data
      ≤ ({ demo_config with sizeof_MPU9150_read_data := 8 } : Config).sizeof_data ∧
    (sdlog_thread_setup { demo_config with sizeof_MPU9150_read_data := 8 }
      (static_state { demo_config with sizeof_MPU9150_read_data := 8 })).2.2
      = some SDC_ASSERT_ERROR := by
  decide

/-- C12, amended: with a payload field of `sizeof_data` bytes (`MAX_PAYLOAD`, between 1 and
2^32 - 1), once the alignment check has passed the set-up passes the payload-size check if
and only if each of the three variants is at most `sizeof_data - 1` bytes, that is
strictly smaller than the payload field; whenever the set-up returns, it returns
`SDC_ASSERT_ERROR` having called only `sdc_reset_fp_index` and `sdc_init_eod`: no event is
registered and no file operation is issued. -/
theorem setup_payload_check (c : Config) (s : State)
    (h0 : 0 < c.sizeof_data) (h1 : c.sizeof_data < 2 ^ 32) :
    (wrap_uint32 (c.sizeof_GENERIC_message * 8) % 16 = 0 →
      ((sdlog_thread_setup c s).2.2 = none ↔
        c.sizeof_MPU9150_read_data ≤ c.sizeof_data - 1 ∧
        c.sizeof_MPL3115A2_read_data ≤ c.sizeof_data - 1 ∧
        c.sizeof_ADIS16405_burst_data ≤ c.sizeof_data - 1)) ∧
    (c.sizeof_data - 1 < c.sizeof_MPU9150_read_data ∨
      c.sizeof_data - 1 < c.sizeof_MPL3115A2_read_data ∨
      c.sizeof_data - 1 < c.sizeof_ADIS16405_burst_data →
      (sdlog_thread_setup c s).2.2 = some SDC_ASSERT_ERROR) ∧
    (∀ err, (sdlog_thread_setup c s).2.2 = some err →
      err = SDC_ASSERT_ERROR ∧
      (sdlog_thread_setup c s).2.1 = [Op.sdc_reset_fp_index, Op.sdc_init_eod 0xa5]) := by
  have hw : wrap_uint32 (c.sizeof_data + 2 ^ 32 - 1) = c.sizeof_data - 1 := by
    unfold wrap_uint32
    have : c.sizeof_data + 2 ^ 32 - 1 = (c.sizeof_data - 1) + 2 ^ 32 := by omega
    rw [this, Nat.add_mod_right]
    exact Nat.mod_eq_of_lt (by omega)
  unfold sdlog_thread_setup
  dsimp only
  rw [hw]
  refine ⟨?_, ?_, ?_⟩
  · intro ha
    rw [if_neg (by simpa using ha)]
    split_ifs with hc
    · simp only [reduceCtorEq, false_iff]
      omega
    · simp only [true_iff]
      omega
  · intro hbig
    split_ifs with ha
    · rfl
    · rfl
  · intro err
    split_ifs <;> simp
    all_goals (intro h; exact h.symm)

/-- Witness for C12 amended: the small configuration passes the payload-size check. -/
theorem setup_payload_check_witness :
    (sdlog_thread_setup demo_config (static_state demo_config)).2.2 = none ↔
      demo_config.sizeof_MPU9150_read_data ≤ demo_config.sizeof_data - 1 ∧
      demo_config.sizeof_MPL3115A2_read_data ≤ demo_config.sizeof_data - 1 ∧
      demo_config.sizeof_ADIS16405_burst_data ≤ demo_config.sizeof_data - 1 :=
  (setup_payload_check demo_config (static_state demo_config) (by decide) (by decide)).1
    (by decide)

/-! ## Medium not ready -/

/-- C17: when the medium is not ready (both reads of `fs_ready` false), processing a
notification other than start-control issues no call at all if the store is closed and
leaves the state unchanged; if the store is open it issues exactly one `f_close` and only
clears `sd_log_opened`.  In both cases there is no open attempt and no write, the store is
closed afterwards, and the sequence counter, `write_errors` and both downsample counters
are unchanged. -/
theorem not_ready_only_closes (c : Config) (e : Env) (s : State) (id : Nat)
    (h1 : e.fs_ready_open = false) (h2 : e.fs_ready_log = false)
    (hid : id ≠ SENSOR_LOG_START) :
    sdc_log_data c e s id =
      (if s.datafile_state.sd_log_opened = true then
        ({ s with datafile_state := { s.datafile_state with sd_log_opened := false } },
          [Op.f_close e.f_close_1])
       else (s, [])) ∧
    (∀ o ∈ (sdc_log_data c e s id).2, o.is_open = false ∧ o.is_write = false) ∧
    List.countP Op.is_close (sdc_log_data c e s id).2
      = (if s.datafile_state.sd_log_opened = true then 1 else 0) ∧
    (sdc_log_data c e s id).1.datafile_state.sd_log_opened = false ∧
    (sdc_log_data c e s id).1.datafile_state.log_sequence = s.datafile_state.log_sequence ∧
    (sdc_log_data c e s id).1.datafile_state.write_errors = s.datafile_state.write_errors ∧
    (sdc_log_data c e s id).1.mpu_count = s.mpu_count ∧
    (sdc_log_data c e s id).1.mpl_count = s.mpl_count := by
  have hmain : sdc_log_data c e s id =
      (if s.datafile_state.sd_log_opened = true then
        ({ s with datafile_state := { s.datafile_state with sd_log_opened := false } },
          [Op.f_close e.f_close_1])
       else (s, [])) := by
    by_cases ho : s.datafile_state.sd_log_opened = true
    · simp [sdc_log_data, sdc_log_data_at, hid, sdc_open_file, sdc_log_block, h1, h2, ho]
    · simp [sdc_log_data, sdc_log_data_at, hid, sdc_open_file, sdc_log_block, h1, h2, ho]
  rw [hmain]
  by_cases ho : s.datafile_state.sd_log_opened = true
  · simp [ho, Op.is_open, Op.is_write, Op.is_record_write, Op.is_checksum_write, Op.is_close]
  · simp [ho]

/-- Witness for C17: a stream-A notification on the open store with the medium gone. -/
theorem not_ready_only_closes_witness :
    List.countP Op.is_close (sdc_log_data demo_config env_not_ready demo_open_state MPU9150).2
      = (if demo_open_state.datafile_state.sd_log_opened = true then 1 else 0) :=
  (not_ready_only_closes demo_config env_not_ready demo_open_state MPU9150 rfl rfl
    (by decide)).2.2.1

/-! ## Contents of the written record -/

/-- C13: every record handed to the write step comes from a stream-A or a stream-B
notification and agrees with it: a stream-A write carries the tag `mpuid` (copied with
`strncpy` into the tag field), `data_length = sizeof(MPU9150_read_data)` and, as its first
`data_length` payload bytes, the stream-A snapshot read at that notification; likewise a
stream-B write carries `mplid`, `sizeof(MPL3115A2_read_data)` and the stream-B snapshot.
Once the set-up has passed its checks, `data_length` is smaller than the payload field and
so never exceeds `MAX_PAYLOAD`. -/
theorem written_record_matches_stream (c : Config) (e : Env) (s : State) (id : Nat)
    (off : Nat) (d : GENERIC_message) (r : SDC_ERRORCode)
    (hw : Op.sdc_write_log_message off d r ∈ (sdc_log_data c e s id).2) :
    ((id = MPU9150 ∧ d.mh.ID = strncpy c.mpuid c.sizeof_ID ∧
        d.mh.data_length = c.sizeof_MPU9150_read_data ∧
        d.data.take d.mh.data_length
          = (List.range c.sizeof_MPU9150_read_data).map
              (fun i => e.mpu9150_current_read.getD i 0) ∧
        (e.mpu9150_current_read.length = c.sizeof_MPU9150_read_data →
          d.data.take d.mh.data_length = e.mpu9150_current_read)) ∨
     (id = MPL3115A2 ∧ d.mh.ID = strncpy c.mplid c.sizeof_ID ∧
        d.mh.data_length = c.sizeof_MPL3115A2_read_data ∧
        d.data.take d.mh.data_length
          = (List.range c.sizeof_MPL3115A2_read_data).map
              (fun i => e.mpl3115a2_current_read.getD i 0) ∧
        (e.mpl3115a2_current_read.length = c.sizeof_MPL3115A2_read_data →
          d.data.take d.mh.data_length = e.mpl3115a2_current_read))) ∧
    (∀ s0, 0 < c.sizeof_data → c.sizeof_data < 2 ^ 32 →
      (sdlog_thread_setup c s0).2.2 = none → d.mh.data_length < c.sizeof_data) := by
  obtain ⟨hdec, hd⟩ := step_record mpu_downsample mpl_downsample c e s id off d r hw
  have hcases := switch_record mpu_downsample mpl_downsample c e
    (sdc_stamp_record e (sdc_open_file e s).1) id hdec
  rw [← hd] at hcases
  constructor
  · rcases hcases with ⟨h1, h2, h3, h4⟩ | ⟨h1, h2, h3, h4⟩
    · left
      refine ⟨h1, h2, h3, ?_, ?_⟩
      · rw [h3, h4, memcpy_take]
      · intro hl
        rw [h3, h4, memcpy_take, ← hl, range_map_getD]
    · right
      refine ⟨h1, h2, h3, ?_, ?_⟩
      · rw [h3, h4, memcpy_take]
      · intro hl
        rw [h3, h4, memcpy_take, ← hl, range_map_getD]
  · intro s0 h0 h1 hp
    have hs := setup_passed_sizes c s0 h0 h1 hp
    rcases hcases with ⟨_, _, h3, _⟩ | ⟨_, _, h3, _⟩ <;> rw [h3] <;> omega

/-- Witness for C13: the record written by the 32nd stream-A notification after a
start-control carries the stream-A tag, length and snapshot. -/
theorem written_record_matches_stream_witness :
    (MPU9150 = MPU9150 ∧ [77, 80, 85, 57] = strncpy demo_config.mpuid demo_config.sizeof_ID ∧
      6 = demo_config.sizeof_MPU9150_read_data) ∨
    (MPU9150 = MPL3115A2 ∧ [77, 80, 85, 57] = strncpy demo_config.mplid demo_config.sizeof_ID ∧
      6 = demo_config.sizeof_MPL3115A2_read_data) :=
  (written_record_matches_stream demo_config env_ok
    (run demo_config (thread_start demo_config) (start_then_mpu 31)).1 MPU9150 0
    { mh := { index := 31, ID := [77, 80, 85, 57], ts := 0, data_length := 6 },
      logtime := { tv_time := 0, tv_msec := 0 },
      data := [1, 2, 3, 4, 5, 6, 0, 0] }
    SDC_OK (by decide)).1.elim
    (fun h => Or.inl ⟨h.1, h.2.1, h.2.2.1⟩) (fun h => Or.inr ⟨h.1, h.2.1, h.2.2.1⟩)

/-! ## Span of the checksum -/

/-- C14, as stated, fails: in two runs from thread start, the stream-B record appended by
the 64th data notification has the same header fields (number 63, tag, time stamp, length 4)
and the same 4 payload bytes, but in the run whose first 32 notifications were stream-A
ones the staging buffer still holds bytes 5 and 6 of the longer stream-A record beyond
`data_length`, and the two checksums differ (46618 against 31738). -/
theorem checksum_depends_on_stale_bytes :
    written_records
        ((run crc_config (thread_start crc_config)
          (start_then_two_streams ADIS16405)).2.getLast?.getD [])
      = [{ mh := { index := 63, ID := [77, 80, 76, 51], ts := 0, data_length := 4 },
           logtime := { tv_time := 0, tv_msec := 0 },
           data := [7, 8, 9, 10, 0, 0, 0, 0] }] ∧
    written_records
        ((run crc_config (thread_start crc_config)
          (start_then_two_streams MPU9150)).2.getLast?.getD [])
      = [{ mh := { index := 63, ID := [77, 80, 76, 51], ts := 0, data_length := 4 },
           logtime := { tv_time := 0, tv_msec := 0 },
           data := [7, 8, 9, 10, 5, 6, 0, 0] }] ∧
    written_checksums
        ((run crc_config (thread_start crc_config)
          (start_then_two_streams ADIS16405)).2.getLast?.getD []) = [46618] ∧
    written_checksums
        ((run crc_config (thread_start crc_config)
          (start_then_two_streams MPU9150)).2.getLast?.getD []) = [31738] := by
  decide

/-- C14, amended: for every append the checksum is computed over the image of the whole
staging record, the header fields followed by all bytes of the payload array, those beyond
`data_length` included; so two appends whose records have equal header fields and equal
payload arrays get equal checksums. -/
theorem checksum_covers_whole_record (c : Config)
    (e1 : Env) (s1 : State) (id1 : Nat) (off1 : Nat) (d1 : GENERIC_message)
    (r1 : SDC_ERRORCode) (coff1 crc1 : Nat) (cr1 : SDC_ERRORCode)
    (e2 : Env) (s2 : State) (id2 : Nat) (off2 : Nat) (d2 : GENERIC_message)
    (r2 : SDC_ERRORCode) (coff2 crc2 : Nat) (cr2 : SDC_ERRORCode)
    (hw1 : Op.sdc_write_log_message off1 d1 r1 ∈ (sdc_log_data c e1 s1 id1).2)
    (hc1 : Op.sdc_write_checksum coff1 crc1 cr1 ∈ (sdc_log_data c e1 s1 id1).2)
    (hw2 : Op.sdc_write_log_message off2 d2 r2 ∈ (sdc_log_data c e2 s2 id2).2)
    (hc2 : Op.sdc_write_checksum coff2 crc2 cr2 ∈ (sdc_log_data c e2 s2 id2).2) :
    crc1 = c.crc_finalize
      (c.crc_update c.crc_init (c.head_image d1.mh d1.logtime ++ d1.data)) ∧
    crc2 = c.crc_finalize
      (c.crc_update c.crc_init (c.head_image d2.mh d2.logtime ++ d2.data)) ∧
    (d1.mh = d2.mh → d1.logtime = d2.logtime → d1.data = d2.data → crc1 = crc2) := by
  have k1 := step_checksum mpu_downsample mpl_downsample c e1 s1 id1 coff1 crc1 cr1 hc1
  have k2 := step_checksum mpu_downsample mpl_downsample c e2 s2 id2 coff2 crc2 cr2 hc2
  rw [← (step_record mpu_downsample mpl_downsample c e1 s1 id1 off1 d1 r1 hw1).2] at k1
  rw [← (step_record mpu_downsample mpl_downsample c e2 s2 id2 off2 d2 r2 hw2).2] at k2
  unfold GENERIC_message_image at k1 k2
  refine ⟨k1, k2, ?_⟩
  intro hm hl hd
  rw [k1, k2, hm, hl, hd]

/-- Witness for C14 amended: the first append of a run from thread start, taken twice. -/
theorem checksum_covers_whole_record_witness :
    (357 : Nat) = demo_config.crc_finalize (demo_config.crc_update demo_config.crc_init
      (demo_config.head_image
        { index := 31, ID := [77, 80, 85, 57], ts := 0, data_length := 6 }
        { tv_time := 0, tv_msec := 0 } ++ [1, 2, 3, 4, 5, 6, 0, 0])) :=
  (checksum_covers_whole_record demo_config
    env_ok (run demo_config (thread_start demo_config) (start_then_mpu 31)).1 MPU9150 0
    { mh := { index := 31, ID := [77, 80, 85, 57], ts := 0, data_length := 6 },
      logtime := { tv_time := 0, tv_msec := 0 },
      data := [1, 2, 3, 4, 5, 6, 0, 0] } SDC_OK 22 357 SDC_OK
    env_ok (run demo_config (thread_start demo_config) (start_then_mpu 31)).1 MPU9150 0
    { mh := { index := 31, ID := [77, 80, 85, 57], ts := 0, data_length := 6 },
      logtime := { tv_time := 0, tv_msec := 0 },
      data := [1, 2, 3, 4, 5, 6, 0, 0] } SDC_OK 22 357 SDC_OK
    (by decide) (by decide) (by decide) (by decide)).1

/-! ## Order of the sequence numbers -/

/-- C15: in every run from thread start of fewer than 2^32 notifications, the sequence
numbers of the records handed to the write step are strictly increasing in the order of
the notifications that produced them, whatever their streams; each of them is the value
the module's own counter `log_sequence` had when its notification was processed, and that
counter is 0 at thread start. -/
theorem written_sequence_numbers_increase (c : Config) (ns : List (Env × Nat))
    (hlen : ns.length < 2 ^ 32) :
    List.Pairwise (fun x y => x < y)
      (written_indices (run c (thread_start c) ns).2.flatten) ∧
    (thread_start c).datafile_state.log_sequence = 0 ∧
    (∀ (i : Nat) (ops : List Op) (off : Nat) (d : GENERIC_message) (r : SDC_ERRORCode),
      (run c (thread_start c) ns).2[i]? = some ops →
      Op.sdc_write_log_message off d r ∈ ops →
      d.mh.index = (run c (thread_start c) (ns.take i)).1.datafile_state.log_sequence) := by
  refine ⟨?_, thread_start_seq c, ?_⟩
  · exact (run_indices_increase mpu_downsample mpl_downsample c ns (thread_start c)
      (by rw [thread_start_seq]; omega)).1
  · intro i ops off d r hi hw
    obtain ⟨n, _, hops⟩ := run_at_getElem mpu_downsample mpl_downsample c ns
      (thread_start c) i ops hi
    rw [hops] at hw
    exact step_index mpu_downsample mpl_downsample c n.1 _ n.2 off d r hw

/-- Witness for C15: a run that interleaves the two logged streams. -/
theorem written_sequence_numbers_increase_witness :
    List.Pairwise (fun x y => x < y)
      (written_indices
        (run demo_config (thread_start demo_config) (start_then_two_streams MPU9150)).2.flatten) :=
  (written_sequence_numbers_increase demo_config (start_then_two_streams MPU9150)
    (by decide)).1

/-! ## Independence of the streams -/

/-- C16: with the store open, in every sequence of stream-A, stream-B and stream-C
notifications processed with the medium ready, the write decisions of the stream-A
notifications are a function of the stream-A counter at the start and of the number of
stream-A notifications alone (the rule `count++ > 30` applied to that subsequence), and
symmetrically for stream B; so two such sequences with the same stream-A notifications
give them the same decisions, whatever notifications of other streams are inserted or
removed. -/
theorem stream_decisions_independent (c : Config) (s1 s2 : State)
    (ns1 ns2 : List (Env × Nat))
    (ho1 : s1.datafile_state.sd_log_opened = true)
    (ho2 : s2.datafile_state.sd_log_opened = true)
    (h1 : ∀ n ∈ ns1, data_ready n) (h2 : ∀ n ∈ ns2, data_ready n) :
    stream_decisions MPU9150 ns1 (run c s1 ns1).2
      = downsample_decisions mpu_downsample s1.mpu_count
          (ns1.countP (fun n => decide (n.2 = MPU9150))) ∧
    stream_decisions MPL3115A2 ns1 (run c s1 ns1).2
      = downsample_decisions mpl_downsample s1.mpl_count
          (ns1.countP (fun n => decide (n.2 = MPL3115A2))) ∧
    (s1.mpu_count = s2.mpu_count →
      ns1.countP (fun n => decide (n.2 = MPU9150))
        = ns2.countP (fun n => decide (n.2 = MPU9150)) →
      stream_decisions MPU9150 ns1 (run c s1 ns1).2
        = stream_decisions MPU9150 ns2 (run c s2 ns2).2) ∧
    (s1.mpl_count = s2.mpl_count →
      ns1.countP (fun n => decide (n.2 = MPL3115A2))
        = ns2.countP (fun n => decide (n.2 = MPL3115A2)) →
      stream_decisions MPL3115A2 ns1 (run c s1 ns1).2
        = stream_decisions MPL3115A2 ns2 (run c s2 ns2).2) := by
  have a1 := mpu_decisions_of_count mpu_downsample mpl_downsample c ns1 s1 ho1 h1
  have a2 := mpu_decisions_of_count mpu_downsample mpl_downsample c ns2 s2 ho2 h2
  have b1 := mpl_decisions_of_count mpu_downsample mpl_downsample c ns1 s1 ho1 h1
  have b2 := mpl_decisions_of_count mpu_downsample mpl_downsample c ns2 s2 ho2 h2
  refine ⟨a1, b1, ?_, ?_⟩
  · intro hc hk
    unfold run
    rw [a1, a2, hc, hk]
  · intro hc hk
    unfold run
    rw [b1, b2, hc, hk]

/-- Witness for C16: 33 stream-A notifications alone, and the same with 32 stream-B
notifications inserted after them, give stream A the same decisions. -/
theorem stream_decisions_independent_witness :
    stream_decisions MPU9150 (List.replicate 33 (env_ok, MPU9150))
        (run demo_config demo_open_state (List.replicate 33 (env_ok, MPU9150))).2
      = stream_decisions MPU9150
        (List.replicate 33 (env_ok, MPU9150) ++ List.replicate 32 (env_ok, MPL3115A2))
        (run demo_config demo_open_state
          (List.replicate 33 (env_ok, MPU9150) ++ List.replicate 32 (env_ok, MPL3115A2))).2 :=
  (stream_decisions_independent demo_config demo_open_state demo_open_state
    (List.replicate 33 (env_ok, MPU9150))
    (List.replicate 33 (env_ok, MPU9150) ++ List.replicate 32 (env_ok, MPL3115A2))
    rfl rfl
    (fun n hn => by rw [List.eq_of_mem_replicate hn]; exact ⟨Or.inl rfl, rfl⟩)
    (fun n hn => by
      rcases List.mem_append.mp hn with h | h
      · rw [List.eq_of_mem_replicate h]; exact ⟨Or.inl rfl, rfl⟩
      · rw [List.eq_of_mem_replicate h]; exact ⟨Or.inr (Or.inl rfl), rfl⟩)).2.2.1
    rfl (by decide)

end Sdc

/-! ## The ADIS16405 temperature conversion -/

namespace SiFc

theorem low12_complement (v : Nat) (h : v < 4096) :
    (v ^^^ 0xffffffff) &&& 0xfff = 4095 - v := by
  have e1 : (0xffffffff : Nat) = 2 ^ 32 - 1 := by norm_num
  have e2 : (0xfff : Nat) = 2 ^ 12 - 1 := by norm_num
  have e3 : 2 ^ 12 - 1 - v = 2 ^ 12 - (v + 1) := by omega
  rw [e1, e2, e3]
  apply Nat.eq_of_testBit_eq
  intro i
  rw [Nat.testBit_and, Nat.testBit_xor, Nat.testBit_two_pow_sub_one,
    Nat.testBit_two_pow_sub_one, Nat.testBit_two_pow_sub_succ (by norm_num; exact h)]
  by_cases h1 : i < 12
  · have h2 : i < 32 := by omega
    simp [h1, h2]
  · simp [h1]

theorem sign_bit_test (raw : Nat) :
    (((1 <<< 11) % 2 ^ 16 &&& raw) ≠ 0) ↔ 2048 ≤ raw % 4096 := by
  have e1 : ((1 <<< 11) % 2 ^ 16 : Nat) = 2 ^ 11 := by decide
  rw [e1, Nat.and_comm, Nat.and_two_pow]
  have ht := @Nat.testBit_to_div_mod 11 raw
  cases hb : raw.testBit 11
  · rw [hb] at ht
    have : ¬ (raw / 2 ^ 11 % 2 = 1) := by simpa using ht.symm
    simp
    omega
  · rw [hb] at ht
    have : raw / 2 ^ 11 % 2 = 1 := by simpa using ht.symm
    simp
    omega

/-- What the function computes for every 16-bit input: the flag is the sign of the 12-bit
value; the negative branch masks the input to 12 bits, the other branch converts all 16
bits. -/
theorem adis16405_temp_to_dC_eq (raw : Nat) :
    (adis16405_temp_to_dC raw).1 = decide (twelve_bit_value raw < 0) ∧
    (adis16405_temp_to_dC raw).2 =
      (if 2048 ≤ raw % 4096 then temp_of_value (twelve_bit_value raw)
       else temp_of_value (raw : Int)) := by
  have hmask : raw &&& 0xfff = raw % 4096 := by
    have e2 : (0xfff : Nat) = 2 ^ 12 - 1 := by norm_num
    rw [e2, Nat.and_pow_two_sub_one_eq_mod]
  have hlt : raw % 4096 < 4096 := Nat.mod_lt _ (by norm_num)
  by_cases hs : 2048 ≤ raw % 4096
  · have hb : (((1 <<< 11) % 2 ^ 16 &&& raw) ≠ 0) := (sign_bit_test raw).mpr hs
    have hv : twelve_bit_value raw = ((raw % 4096 : Nat) : Int) - 4096 := by
      unfold twelve_bit_value
      rw [if_neg (by omega)]
    have hdec : ((4095 - raw % 4096) % 2 ^ 16 + 1) % 2 ^ 32 = 4096 - raw % 4096 := by omega
    unfold adis16405_temp_to_dC
    simp only [hb, ne_eq, not_false_eq_true, decide_True, if_true, hmask,
      low12_complement _ hlt, hdec, hs, hv]
    constructor
    · symm
      rw [decide_eq_true_eq]
      omega
    · unfold temp_of_value
      have hc : ((4096 - raw % 4096 : Nat) : ℚ) = 4096 - ((raw % 4096 : Nat) : ℚ) := by
        rw [Nat.cast_sub (by omega)]
        norm_num
      rw [hc]
      simp only [Int.cast_sub, Int.cast_natCast, Int.cast_ofNat]
      ring
  · have hb : ¬ (((1 <<< 11) % 2 ^ 16 &&& raw) ≠ 0) := fun h => hs ((sign_bit_test raw).mp h)
    have hv : twelve_bit_value raw = ((raw % 4096 : Nat) : Int) := by
      unfold twelve_bit_value
      rw [if_pos (by omega)]
    unfold adis16405_temp_to_dC
    simp only [hb, decide_False, Bool.false_eq_true, if_false, hs, hv]
    constructor
    · symm
      rw [decide_eq_false_iff_not]
      omega
    · unfold temp_of_value
      simp only [Int.cast_natCast]
      ring

/-- C18, at the failing input `0x8005` (bit 15 set, low 12 bits 5): the function returns
false and stores 25 + 0.14 * 32773 = 4613.22, not the 25 + 0.14 * 5 = 25.7 of the 12-bit
value, which it does store for the input `0x0005`; bits 12 to 15 change the result. -/
theorem adis_temp_keeps_high_bits_when_positive :
    twelve_bit_value 0x8005 = 5 ∧ twelve_bit_value 0x0005 = 5 ∧
    adis16405_temp_to_dC 0x8005 = (false, 461322 / 100) ∧
    adis16405_temp_to_dC 0x0005 = (false, 257 / 10) ∧
    temp_of_value 5 = 257 / 10 ∧
    (adis16405_temp_to_dC 0x8005).2 ≠ temp_of_value (twelve_bit_value 0x8005) := by
  have h1 : twelve_bit_value 0x8005 = 5 := by decide
  have h2 : twelve_bit_value 0x0005 = 5 := by decide
  have h3 : adis16405_temp_to_dC 0x8005 = (false, 461322 / 100) := by
    have hb : ¬ (((1 <<< 11) % 2 ^ 16 &&& 0x8005) ≠ 0) := by decide
    unfold adis16405_temp_to_dC
    simp only [hb, decide_False, Bool.false_eq_true, if_false]
    norm_num
  have h4 : adis16405_temp_to_dC 0x0005 = (false, 257 / 10) := by
    have hb : ¬ (((1 <<< 11) % 2 ^ 16 &&& 0x0005) ≠ 0) := by decide
    unfold adis16405_temp_to_dC
    simp only [hb, decide_False, Bool.false_eq_true, if_false]
    norm_num
  have h5 : temp_of_value 5 = 257 / 10 := by
    unfold temp_of_value
    norm_num
  refine ⟨h1, h2, h3, h4, h5, ?_⟩
  rw [h3, h1, h5]
  norm_num

end SiFc
